import Mathlib

/-!
Verification development for the oauth-service repository: a shallow
embedding of the GitHub OAuth login/callback handlers, the cookie codec,
the CORS utilities and the configuration module, together with theorems
settling the frozen claims about the natural-language specification.

JavaScript strings are modelled as lists of Unicode scalar values
(`List Char`), which coincides with well-formed UTF-16 strings.  JS
`undefined`/missing values are modelled as `Option`, and JS truthiness of
strings (empty string is falsy) is made explicit via `jsTruthy`.
-/

/-- JavaScript strings, modelled as lists of Unicode scalar values. -/
abbrev Str := List Char

/-- Truthiness of a possibly-undefined JS string: `undefined` and `""` are falsy. -/
def jsTruthy : Option Str → Bool
  | none => false
  | some s => !s.isEmpty

/-- The JS `a || b` operator on possibly-undefined strings. -/
def jsOrOpt (a b : Option Str) : Option Str :=
  if jsTruthy a then a else b

/-- The JS `a || d` operator where the fallback `d` is a present string. -/
def jsOrStr (a : Option Str) (d : Str) : Str :=
  match a with
  | some s => if s.isEmpty then d else s
  | none => d

/-- First-match association-list lookup, modelling JS object property access
(object keys in this development are unique unless noted otherwise). -/
def lookupFirst {α : Type} (k : Str) : List (Str × α) → Option α
  | [] => none
  | (k1, v) :: t => if k1 = k then some v else lookupFirst k t

/-- Last-match association-list lookup.  `parseCookies` records assignments in
encounter order, so the last entry for a name models the JS object-overwrite
semantics of `cookies[name] = value`. -/
def lookupLast (k : Str) : List (Str × Str) → Option Str
  | [] => none
  | (k1, v) :: t =>
    match lookupLast k t with
    | some r => some r
    | none => if k1 = k then some v else none

/-- Characters removed by JS `String.prototype.trim` (ECMAScript WhiteSpace
and LineTerminator code points). -/
def isJsSpace (c : Char) : Bool :=
  c.toNat = 9 || c.toNat = 10 || c.toNat = 11 || c.toNat = 12 || c.toNat = 13 ||
  c.toNat = 32 || c.toNat = 160 || c.toNat = 5760 ||
  (8192 ≤ c.toNat && c.toNat ≤ 8202) ||
  c.toNat = 8232 || c.toNat = 8233 || c.toNat = 8239 || c.toNat = 8287 ||
  c.toNat = 12288 || c.toNat = 65279

/-- JS `String.prototype.trim`. -/
def jsTrim (s : Str) : Str :=
  ((s.dropWhile isJsSpace).reverse.dropWhile isJsSpace).reverse

/-- Split a string at the first occurrence of separator `c`: returns the part
before the separator and, when the separator occurs, the rest after it. -/
def splitFirstOn (c : Char) : Str → Str × Option Str
  | [] => ([], none)
  | a :: t =>
    if a = c then ([], some t)
    else
      let r := splitFirstOn c t
      (a :: r.1, r.2)

/-- Accumulator worker for `splitAllOn`. -/
def splitAllOnAux (c : Char) : Str → Str → List Str
  | [], acc => [acc.reverse]
  | a :: t, acc =>
    if a = c then acc.reverse :: splitAllOnAux c t []
    else splitAllOnAux c t (a :: acc)

/-- JS `String.prototype.split` with a single-character separator and no
limit: splits at every occurrence, keeping empty segments. -/
def splitAllOn (c : Char) (s : Str) : List Str :=
  splitAllOnAux c s []

/-- Boolean test that `pre` is an initial segment of `s`. -/
def strStartsWith (s pre : Str) : Bool :=
  match pre with
  | [] => true
  | b :: p =>
    match s with
    | [] => false
    | a :: t => a = b && strStartsWith t p

/-- Boolean substring test, modelling JS `String.prototype.includes`.  The
recursive call sits in tail position so that evaluation inside the kernel
uses constant stack. -/
def strContains : Str → Str → Bool
  | [], needle => strStartsWith [] needle
  | a :: t, needle =>
    if strStartsWith (a :: t) needle then true else strContains t needle

/-- Uppercase hexadecimal digit for a nibble, as produced by the ECMAScript
`Encode` abstract operation (percent escapes use uppercase digits). -/
def ucHexChar (n : Nat) : Char :=
  if n < 10 then Char.ofNat (48 + n) else Char.ofNat (55 + n)

/-- Lowercase hexadecimal digit for a nibble, as produced by Node's
`Buffer.prototype.toString('hex')`. -/
def lcHexChar (n : Nat) : Char :=
  if n < 10 then Char.ofNat (48 + n) else Char.ofNat (87 + n)

/-- Value of a hexadecimal digit character; `decodeURIComponent` accepts both
uppercase and lowercase digits. -/
def hexCharVal (c : Char) : Option Nat :=
  if 48 ≤ c.toNat ∧ c.toNat ≤ 57 then some (c.toNat - 48)
  else if 65 ≤ c.toNat ∧ c.toNat ≤ 70 then some (c.toNat - 55)
  else if 97 ≤ c.toNat ∧ c.toNat ≤ 102 then some (c.toNat - 87)
  else none

/-- UTF-8 encoding of a Unicode scalar value, as a list of byte values. -/
def utf8Bytes (n : Nat) : List Nat :=
  if n < 128 then [n]
  else if n < 2048 then [192 + n / 64, 128 + n % 64]
  else if n < 65536 then [224 + n / 4096, 128 + n / 64 % 64, 128 + n % 64]
  else [240 + n / 262144, 128 + n / 4096 % 64, 128 + n / 64 % 64, 128 + n % 64]

/-- Percent-escape a list of byte values, e.g. `[58]` becomes `"%3A"`. -/
def pctEncBytes : List Nat → Str
  | [] => []
  | b :: t => '%' :: ucHexChar (b / 16) :: ucHexChar (b % 16) :: pctEncBytes t

/-- Characters left unescaped by `encodeURIComponent`: ASCII alphanumerics
and `- _ . ! ~ * ' ( )` (the `uriUnescaped` set of ECMA-262). -/
def uriUnreserved (c : Char) : Bool :=
  (48 ≤ c.toNat && c.toNat ≤ 57) ||
  (65 ≤ c.toNat && c.toNat ≤ 90) ||
  (97 ≤ c.toNat && c.toNat ≤ 122) ||
  c = '-' || c = '_' || c = '.' || c = '!' || c = '~' || c = '*' ||
  c = Char.ofNat 39 || c = '(' || c = ')'

/-- Encoding of a single character by `encodeURIComponent`. -/
def encChar (c : Char) : Str :=
  if uriUnreserved c then [c] else pctEncBytes (utf8Bytes c.toNat)

/-- JS `encodeURIComponent`. -/
def encodeURIComponent : Str → Str
  | [] => []
  | c :: t => encChar c ++ encodeURIComponent t

/-- Percent-unescape pass of `decodeURIComponent`: every `%XX` escape
becomes a byte (`Sum.inr`), every other character is copied (`Sum.inl`);
`none` models the `URIError` thrown on a truncated or non-hex escape. -/
def pctTokens : Str → Option (List (Sum Char Nat))
  | [] => some []
  | c :: rest =>
    if c = '%' then
      match rest with
      | h1 :: h2 :: r =>
        match hexCharVal h1, hexCharVal h2 with
        | some a, some b => (pctTokens r).map (fun l => Sum.inr (16 * a + b) :: l)
        | _, _ => none
      | _ => none
    else (pctTokens rest).map (fun l => Sum.inl c :: l)

mutual

/-- UTF-8 assembly pass of `decodeURIComponent`: decodes runs of escaped
bytes as UTF-8, returning `none` where JS would throw `URIError` (invalid
leading bytes, continuation bytes that are missing, unescaped or out of
range, overlong encodings, surrogates, values beyond U+10FFFF).  The
two/three/four-byte sequences are handled by the sibling functions. -/
def utf8Asm : List (Sum Char Nat) → Option Str
  | [] => some []
  | Sum.inl c :: t => (utf8Asm t).map (fun s => c :: s)
  | Sum.inr b :: t =>
    if b < 128 then (utf8Asm t).map (fun s => Char.ofNat b :: s)
    else if b < 192 then none
    else if b < 224 then utf8Asm2 b t
    else if b < 240 then utf8Asm3 b t
    else if b < 248 then utf8Asm4 b t
    else none

/-- Continuation of a two-byte UTF-8 sequence with leading byte `b`. -/
def utf8Asm2 (b : Nat) : List (Sum Char Nat) → Option Str
  | Sum.inr b2 :: t2 =>
    if 128 ≤ b2 ∧ b2 < 192 ∧ 128 ≤ (b - 192) * 64 + (b2 - 128) then
      (utf8Asm t2).map (fun s => Char.ofNat ((b - 192) * 64 + (b2 - 128)) :: s)
    else none
  | _ => none

/-- Continuation of a three-byte UTF-8 sequence with leading byte `b`. -/
def utf8Asm3 (b : Nat) : List (Sum Char Nat) → Option Str
  | Sum.inr b2 :: Sum.inr b3 :: t2 =>
    if 128 ≤ b2 ∧ b2 < 192 ∧ 128 ≤ b3 ∧ b3 < 192 ∧
        2048 ≤ (b - 224) * 4096 + (b2 - 128) * 64 + (b3 - 128) ∧
        ¬(55296 ≤ (b - 224) * 4096 + (b2 - 128) * 64 + (b3 - 128) ∧
          (b - 224) * 4096 + (b2 - 128) * 64 + (b3 - 128) ≤ 57343) then
      (utf8Asm t2).map (fun s => Char.ofNat ((b - 224) * 4096 + (b2 - 128) * 64 + (b3 - 128)) :: s)
    else none
  | _ => none

/-- Continuation of a four-byte UTF-8 sequence with leading byte `b`. -/
def utf8Asm4 (b : Nat) : List (Sum Char Nat) → Option Str
  | Sum.inr b2 :: Sum.inr b3 :: Sum.inr b4 :: t2 =>
    if 128 ≤ b2 ∧ b2 < 192 ∧ 128 ≤ b3 ∧ b3 < 192 ∧ 128 ≤ b4 ∧ b4 < 192 ∧
        65536 ≤ (b - 240) * 262144 + (b2 - 128) * 4096 + (b3 - 128) * 64 + (b4 - 128) ∧
        (b - 240) * 262144 + (b2 - 128) * 4096 + (b3 - 128) * 64 + (b4 - 128) < 1114112 then
      (utf8Asm t2).map (fun s =>
        Char.ofNat ((b - 240) * 262144 + (b2 - 128) * 4096 + (b3 - 128) * 64 + (b4 - 128)) :: s)
    else none
  | _ => none

end

/-- JS `decodeURIComponent` (the ECMAScript `Decode` abstract operation with
the empty reserved set): copies characters other than `%`, and decodes
maximal `%XX` escape runs as UTF-8, returning `none` where JS would throw
`URIError`. -/
def decodeURIComponent (s : Str) : Option Str :=
  (pctTokens s).bind utf8Asm

/-- Hex rendering of a byte list, as `Buffer.prototype.toString('hex')`:
two lowercase hex digits per byte. -/
def hexOfBytes : List Nat → Str
  | [] => []
  | b :: t => lcHexChar (b / 16) :: lcHexChar (b % 16) :: hexOfBytes t

/-- Lowercase-hex-digit test, for stating facts about `hexOfBytes` output. -/
def isLcHexDigit (c : Char) : Bool :=
  (48 ≤ c.toNat && c.toNat ≤ 57) || (97 ≤ c.toNat && c.toNat ≤ 102)

/-- Options accepted by `createCookieHeader` (src/utils/cookies.js).  The
`maxAge` field is a JS number whose truthiness is `≠ 0`. -/
structure CookieOptions where
  httpOnly : Bool := false
  secure : Bool := false
  sameSite : Option Str := none
  maxAge : Nat := 0
  path : Option Str := none
  domain : Option Str := none
deriving DecidableEq

/-- The default `options = {}` argument of `createCookieHeader`. -/
def emptyCookieOptions : CookieOptions := {}

/-- Embedding of `getCookieOptions` (src/utils/cookies.js): HttpOnly, Secure
only in production, SameSite=Lax, Max-Age 600, Path=/ .  The source sets
`domain` to `undefined` in production and `null` otherwise; both are falsy, so
both are modelled as `none`. -/
def getCookieOptions (nodeEnv : Option Str) : CookieOptions :=
  { httpOnly := true
    secure := decide (nodeEnv = some ("production".data))
    sameSite := some ("Lax".data)
    maxAge := 600
    path := some ("/".data)
    domain := none }

/-- Decimal rendering of a JS number inside a template literal. -/
def natToStr (n : Nat) : Str := (Nat.repr n).data

/-- Embedding of `createCookieHeader` (src/utils/cookies.js): the value is
percent-encoded with `encodeURIComponent`, and every truthy option appends
its attribute in source order. -/
def createCookieHeader (name value : Str) (options : CookieOptions) : Str :=
  name ++ ("=".data) ++ encodeURIComponent value ++
  (if options.httpOnly then ("; HttpOnly".data) else []) ++
  (if options.secure then ("; Secure".data) else []) ++
  (match options.sameSite with
   | some s => if s.isEmpty then [] else ("; SameSite=".data) ++ s
   | none => []) ++
  (if options.maxAge ≠ 0 then ("; Max-Age=".data) ++ natToStr options.maxAge else []) ++
  (match options.path with
   | some p => if p.isEmpty then [] else ("; Path=".data) ++ p
   | none => []) ++
  (match options.domain with
   | some d => if d.isEmpty then [] else ("; Domain=".data) ++ d
   | none => [])

/-- Query-string parameters of a Lambda event that the two handlers read.
A `none` field models an absent property (JS `undefined`). -/
structure QS where
  project : Option Str := none
  code : Option Str := none
  state : Option Str := none
  error : Option Str := none
deriving DecidableEq

/-- Lambda event, narrowed to the fields the handlers dereference.
`rcMethod` models `event.requestContext?.http?.method`; `cookieL`/`cookieU`
model `event.headers?.cookie` and `event.headers?.Cookie`; `originL`/`originU`
model `event.headers?.origin` and `event.headers?.Origin`. -/
structure Event where
  httpMethod : Option Str := none
  rcMethod : Option Str := none
  qs : Option QS := none
  cookieL : Option Str := none
  cookieU : Option Str := none
  originL : Option Str := none
  originU : Option Str := none
deriving DecidableEq

/-- The `event.queryStringParameters || {}` step shared by both handlers. -/
def eventQS (ev : Event) : QS := ev.qs.getD {}

/-- Worker of `parseCookies`: processes the `';'`-separated pieces of the
cookie header in order.  Each piece is trimmed and split on every `'='`
(JS `cookie.trim().split('=')`), the destructuring `[name, value]` keeps only
the first two segments, falsy names or values are skipped, and the value is
percent-decoded — `none` models the `URIError` that `decodeURIComponent`
throws on a malformed value, which propagates out of `parseCookies`. -/
def parseCookiesList : List Str → Option (List (Str × Str))
  | [] => some []
  | p :: rest =>
    match (splitAllOn '=' (jsTrim p)).get? 1 with
    | some v =>
      if (splitAllOn '=' (jsTrim p)).headD [] ≠ [] ∧ v ≠ [] then
        match decodeURIComponent v with
        | none => none
        | some dv =>
          (parseCookiesList rest).map (fun l => ((splitAllOn '=' (jsTrim p)).headD [], dv) :: l)
      else parseCookiesList rest
    | none => parseCookiesList rest

/-- The raw cookie header used by `parseCookies`:
`event.headers?.cookie || event.headers?.Cookie || ''`. -/
def cookieHeaderOf (ev : Event) : Str :=
  jsOrStr (jsOrOpt ev.cookieL ev.cookieU) []

/-- Embedding of `parseCookies` (src/utils/cookies.js) on a raw header
string. -/
def parseCookiesStr (s : Str) : Option (List (Str × Str)) :=
  parseCookiesList (splitAllOn ';' s)

/-- Embedding of `parseCookies` (src/utils/cookies.js) on an event. -/
def parseCookies (ev : Event) : Option (List (Str × Str)) :=
  parseCookiesStr (cookieHeaderOf ev)

/-- Embedding of `extractStateFromCookies` (src/utils/cookies.js):
`cookies.oauth_state || null`.  The outer `none` models a thrown `URIError`;
`some none` models the `null` result. -/
def extractStateFromCookies (ev : Event) : Option (Option Str) :=
  (parseCookies ev).map fun cookies =>
    match lookupLast ("oauth_state".data) cookies with
    | some v => if v.isEmpty then none else some v
    | none => none

/-- Environment variables read by src/config/index.js. -/
structure Env where
  githubClientId : Option Str := none
  ghClientId : Option Str := none
  githubClientSecret : Option Str := none
  ghClientSecret : Option Str := none
  nodeEnv : Option Str := none
  oauthApiUrl : Option Str := none
  additionalOrigins : Option Str := none
deriving DecidableEq

/-- The `process.env.NODE_ENV === 'production'` test of src/config/index.js. -/
def isProduction (env : Env) : Bool :=
  decide (env.nodeEnv = some ("production".data))

/-- A project entry of the static registry in src/config/index.js. -/
structure ProjectCfg where
  name : Str
  frontendUrl : Str
deriving DecidableEq

/-- The `create` project registration. -/
def createProject (env : Env) : ProjectCfg :=
  { name := ("create".data)
    frontendUrl :=
      if isProduction env then ("https://create.rbios.net".data)
      else ("http://localhost:5173".data) }

/-- The `prompts` project registration. -/
def promptsProject (env : Env) : ProjectCfg :=
  { name := ("prompts".data)
    frontendUrl :=
      if isProduction env then ("https://prompts.rbios.net".data)
      else ("http://localhost:5174".data) }

/-- The `config.projects` table, in object-literal insertion order. -/
def projectsTable (env : Env) : List (Str × ProjectCfg) :=
  [(("create".data), createProject env), (("prompts".data), promptsProject env)]

/-- The registered project ids (the keys of `config.projects`). -/
def projectKeys : List Str := [("create".data), ("prompts".data)]

/-- `config.github.clientId`: `GITHUB_CLIENT_ID || GH_CLIENT_ID`. -/
def cfgClientId (env : Env) : Option Str :=
  jsOrOpt env.githubClientId env.ghClientId

/-- `config.github.clientSecret`: `GITHUB_CLIENT_SECRET || GH_CLIENT_SECRET`. -/
def cfgClientSecret (env : Env) : Option Str :=
  jsOrOpt env.githubClientSecret env.ghClientSecret

/-- `config.api.baseUrl`: the `OAUTH_API_URL` override or the per-environment
default. -/
def apiBaseUrl (env : Env) : Str :=
  jsOrStr env.oauthApiUrl
    (if isProduction env then ("https://api.rbios.net".data)
     else ("http://localhost:3000".data))

/-- `process.env.ADDITIONAL_ORIGINS?.split(',') || []`. -/
def additionalOriginsList (env : Env) : List Str :=
  match env.additionalOrigins with
  | none => []
  | some s => splitAllOn ',' s

/-- `config.allowedOrigins`: project frontend URLs and extra origins,
filtered by `Boolean`, with the fixed localhost origins pushed afterwards in
non-production mode. -/
def allowedOrigins (env : Env) : List Str :=
  (((projectsTable env).map (fun x => x.2.frontendUrl)) ++ additionalOriginsList env).filter
      (fun s => !s.isEmpty) ++
  (if isProduction env then []
   else [("http://localhost:3000".data), ("http://localhost:3001".data),
         ("http://localhost:5173".data), ("http://localhost:5174".data)])

/-- The `errors` list built by `validateConfig` (src/config/index.js), in
source push order. -/
def validateConfigErrors (env : Env) : List Str :=
  (if jsTruthy (cfgClientId env) then [] else [("Missing GitHub Client ID".data)]) ++
  (if jsTruthy (cfgClientSecret env) then [] else [("Missing GitHub Client Secret".data)]) ++
  (if (allowedOrigins env).length = 0 then [("No allowed origins configured".data)] else [])

/-- The `valid` field of the `validateConfig` result. -/
def validConfig (env : Env) : Bool :=
  decide (validateConfigErrors env = [])

/-- `getOAuthCallbackUrl()` with no project argument, as called by the login
handler. -/
def getOAuthCallbackUrl (env : Env) : Str :=
  apiBaseUrl env ++ ("/oauth/callback".data)

/-- Embedding of `getCorsHeaders` (src/utils/cors.js). -/
def corsHeaders (env : Env) (ev : Event) : List (Str × Str) :=
  let origin := jsOrStr (jsOrOpt ev.originL ev.originU) []
  let corsOrigin :=
    if (allowedOrigins env).any (fun o => o = origin) then origin
    else (allowedOrigins env).headD []
  [(("Access-Control-Allow-Origin".data), corsOrigin),
   (("Access-Control-Allow-Headers".data), ("Content-Type, Authorization".data)),
   (("Access-Control-Allow-Methods".data), ("GET, POST, OPTIONS".data)),
   (("Access-Control-Allow-Credentials".data), ("true".data))]

/-- Embedding of `getFrontendOrigin` (src/utils/cors.js): registry lookup
with fallback to the `create` project's frontend URL for unknown ids. -/
def getFrontendOrigin (env : Env) (project : Str) : Str :=
  match lookupFirst project (projectsTable env) with
  | some pc => pc.frontendUrl
  | none => (createProject env).frontendUrl

/-- Text of the success template (src/handlers/oauth-callback.js,
`generatePostMessageHTML`) up to the `${accessToken}` hole.  Literal braces
are written with `\x7b`/`\x7d` escapes. -/
def pmPre : Str :=
  ("\n    <!DOCTYPE html>\n    <html>\n    <head>\n      <title>OAuth Success</title>\n      <style>\n        body \x7b\n          font-family: -apple-system, BlinkMacSystemFont, 'Segoe UI', Roboto, sans-serif;\n          display: flex;\n          align-items: center;\n          justify-content: center;\n          height: 100vh;\n          margin: 0;\n          background: linear-gradient(135deg, #667eea 0%, #764ba2 100%);\n        \x7d\n        .container \x7b\n          text-align: center;\n          background: white;\n          padding: 2rem;\n          border-radius: 10px;\n          box-shadow: 0 20px 60px rgba(0,0,0,0.1);\n        \x7d\n        .success-icon \x7b\n          width: 60px;\n          height: 60px;\n          margin: 0 auto 1rem;\n          fill: #10b981;\n        \x7d\n        h1 \x7b\n          color: #1f2937;\n          margin: 0 0 0.5rem;\n        \x7d\n        p \x7b\n          color: #6b7280;\n          margin: 0;\n        \x7d\n      </style>\n    </head>\n    <body>\n      <div class=\"container\">\n        <svg class=\"success-icon\" viewBox=\"0 0 24 24\">\n          <path d=\"M9 11l3 3L22 4\" stroke=\"currentColor\" stroke-width=\"2\" fill=\"none\" stroke-linecap=\"round\" stroke-linejoin=\"round\"/>\n          <path d=\"M21 12v7a2 2 0 01-2 2H5a2 2 0 01-2-2V5a2 2 0 012-2h11\" stroke=\"currentColor\" stroke-width=\"2\" fill=\"none\" stroke-linecap=\"round\" stroke-linejoin=\"round\"/>\n        </svg>\n        <h1>Authentication Successful!</h1>\n        <p>You can now close this window.</p>\n      </div>\n      <script>\n        // Post the access token to the parent window\n        if (window.opener) \x7b\n          window.opener.postMessage(\x7b\n            source: 'oauth',\n            access_token: '".data)

/-- Text of the success template between the `${accessToken}` hole and the
`${frontendOrigin}` hole. -/
def pmMid : Str :=
  ("'\n          \x7d, '".data)

/-- Text of the success template after the `${frontendOrigin}` hole. -/
def pmPost : Str :=
  ("');\n        \x7d\n        \n        // Auto-close after a short delay\n        setTimeout(() => \x7b\n          window.close();\n        \x7d, 2000);\n      </script>\n    </body>\n    </html>\n  ".data)

/-- Embedding of `generatePostMessageHTML` (src/handlers/oauth-callback.js):
the fixed template with the access token and frontend origin interpolated. -/
def generatePostMessageHTML (accessToken frontendOrigin : Str) : Str :=
  pmPre ++ accessToken ++ pmMid ++ frontendOrigin ++ pmPost

/-- Text of the error template (src/handlers/oauth-callback.js,
`generateErrorHTML`) up to the `${error}` hole. -/
def errPre : Str :=
  ("\n    <!DOCTYPE html>\n    <html>\n    <head>\n      <title>OAuth Error</title>\n      <style>\n        body \x7b\n          font-family: -apple-system, BlinkMacSystemFont, 'Segoe UI', Roboto, sans-serif;\n          display: flex;\n          align-items: center;\n          justify-content: center;\n          height: 100vh;\n          margin: 0;\n          background: #f3f4f6;\n        \x7d\n        .container \x7b\n          text-align: center;\n          background: white;\n          padding: 2rem;\n          border-radius: 10px;\n          box-shadow: 0 10px 40px rgba(0,0,0,0.1);\n        \x7d\n        .error-icon \x7b\n          width: 60px;\n          height: 60px;\n          margin: 0 auto 1rem;\n          fill: #ef4444;\n        \x7d\n        h1 \x7b\n          color: #1f2937;\n          margin: 0 0 0.5rem;\n        \x7d\n        p \x7b\n          color: #6b7280;\n          margin: 0 0 1rem;\n        \x7d\n        button \x7b\n          background: #3b82f6;\n          color: white;\n          border: none;\n          padding: 0.75rem 1.5rem;\n          border-radius: 6px;\n          font-size: 1rem;\n          cursor: pointer;\n        \x7d\n        button:hover \x7b\n          background: #2563eb;\n        \x7d\n      </style>\n    </head>\n    <body>\n      <div class=\"container\">\n        <svg class=\"error-icon\" viewBox=\"0 0 24 24\">\n          <circle cx=\"12\" cy=\"12\" r=\"10\" stroke=\"currentColor\" stroke-width=\"2\" fill=\"none\"/>\n          <path d=\"M12 8v4m0 4h.01\" stroke=\"currentColor\" stroke-width=\"2\" stroke-linecap=\"round\" stroke-linejoin=\"round\"/>\n        </svg>\n        <h1>Authentication Failed</h1>\n        <p>".data)

/-- Text of the error template after the `${error}` hole. -/
def errPost : Str :=
  ("</p>\n        <button onclick=\"window.close()\">Close Window</button>\n      </div>\n    </body>\n    </html>\n  ".data)

/-- Embedding of `generateErrorHTML` (src/handlers/oauth-callback.js). -/
def generateErrorHTML (error : Str) : Str :=
  errPre ++ error ++ errPost

/-- Lambda responses, narrowed to the fields the handlers produce.  Headers
are an association list in object-literal order. -/
structure Response where
  statusCode : Nat
  headers : List (Str × Str)
  body : Str
  cookies : List Str := []
deriving DecidableEq

/-- Header lookup on a response (object keys are unique in every response the
handlers build, so first match suffices). -/
def headerValue (r : Response) (name : Str) : Option Str :=
  lookupFirst name r.headers

/-- Characters kept verbatim by `URLSearchParams` serialization
(`application/x-www-form-urlencoded`): ASCII alphanumerics and `* - . _`. -/
def formUnreserved (c : Char) : Bool :=
  (48 ≤ c.toNat && c.toNat ≤ 57) ||
  (65 ≤ c.toNat && c.toNat ≤ 90) ||
  (97 ≤ c.toNat && c.toNat ≤ 122) ||
  c = '*' || c = '-' || c = '.' || c = '_'

/-- `application/x-www-form-urlencoded` serialization of one character:
space becomes `+`, unreserved characters stay, the rest is percent-escaped
UTF-8. -/
def formEncChar (c : Char) : Str :=
  if c = ' ' then ['+']
  else if formUnreserved c then [c]
  else pctEncBytes (utf8Bytes c.toNat)

/-- `application/x-www-form-urlencoded` serialization of a string, as used by
`url.searchParams.set` + `url.toString()` in the login handler. -/
def formEnc : Str → Str
  | [] => []
  | c :: t => formEncChar c ++ formEnc t

/-- The GitHub authorization URL built by the login handler
(src/handlers/oauth-login.js): `new URL('https://github.com/login/oauth/authorize')`
with `client_id`, `redirect_uri`, `scope` and `state` query parameters set in
that order. -/
def githubAuthUrl (env : Env) (stateWithProject : Str) : Str :=
  ("https://github.com/login/oauth/authorize?client_id=".data) ++
  formEnc (match cfgClientId env with | some s => s | none => ("undefined".data)) ++
  ("&redirect_uri=".data) ++ formEnc (getOAuthCallbackUrl env) ++
  ("&scope=".data) ++ formEnc ("repo,user".data) ++
  ("&state=".data) ++ formEnc stateWithProject

/-- The CSRF state token composed by the login handler:
`crypto.randomBytes(config.security.stateLength).toString('hex')` followed by
`':'` and the project id (`stateWithProject` in the source). -/
def stateToken (randomBytes : List Nat) (project : Str) : Str :=
  hexOfBytes randomBytes ++ ':' :: project

/-- The JSON body of the login handler's configuration-error response:
`JSON.stringify({error: 'Server configuration error', details: errors})`.
None of the error strings produced by `validateConfig` needs JSON escaping. -/
def jsonConfigErrorBody (errors : List Str) : Str :=
  ("\x7b\"error\":\"Server configuration error\",\"details\":[".data) ++
  (match errors.map (fun e => '"' :: e ++ ['"']) with
   | [] => []
   | e :: t => e ++ t.foldl (fun acc x => acc ++ ',' :: x) []) ++
  ("]\x7d".data)

/-- The login handler's configuration-error response (status 500, JSON body
itemizing the missing configuration). -/
def loginConfigErrorResponse (env : Env) : Response :=
  { statusCode := 500
    headers := [(("Content-Type".data), ("application/json".data))]
    body := jsonConfigErrorBody (validateConfigErrors env) }

/-- Embedding of `handlePreflight` (src/utils/cors.js): 200 with the CORS
headers and the fixed JSON body. -/
def preflightResponse (env : Env) (ev : Event) : Response :=
  { statusCode := 200
    headers := corsHeaders env ev
    body := ("\x7b\"message\":\"OK\"\x7d".data) }

/-- The login handler's 405 response for methods other than GET/OPTIONS. -/
def methodNotAllowedResponse (env : Env) (ev : Event) : Response :=
  { statusCode := 405
    headers := corsHeaders env ev ++ [(("Content-Type".data), ("application/json".data))]
    body := ("\x7b\"error\":\"Method not allowed\"\x7d".data) }

/-- The resolved HTTP method:
`event.httpMethod || event.requestContext?.http?.method`. -/
def resolvedMethod (ev : Event) : Option Str :=
  jsOrOpt ev.httpMethod ev.rcMethod

/-- The `project` query parameter with its destructuring default:
`const { project = 'create' } = event.queryStringParameters || {}`. -/
def loginProjectOf (ev : Event) : Str :=
  ((eventQS ev).project).getD ("create".data)

/-- Embedding of the login handler (src/handlers/oauth-login.js).  The
`randomBytes` argument models the output of
`crypto.randomBytes(config.security.stateLength)` (16 bytes).  Check order as
in the source: configuration, OPTIONS preflight, GET-only, then the redirect
with the state cookie.  Nothing inside the handler's `try` block can throw,
so the catch branch is unreachable and not modelled. -/
def loginHandler (env : Env) (ev : Event) (randomBytes : List Nat) : Response :=
  if !validConfig env then loginConfigErrorResponse env
  else if resolvedMethod ev = some ("OPTIONS".data) then preflightResponse env ev
  else if resolvedMethod ev ≠ some ("GET".data) then methodNotAllowedResponse env ev
  else
    { statusCode := 302
      headers := corsHeaders env ev ++
        [(("Location".data), githubAuthUrl env (stateToken randomBytes (loginProjectOf ev)))]
      body := []
      cookies := [createCookieHeader ("oauth_state".data)
        (stateToken randomBytes (loginProjectOf ev)) (getCookieOptions env.nodeEnv)] }

/-- The callback handler's configuration-error response: status 500, only a
Content-Type header (no CORS headers), generic error HTML that does not
itemize the missing configuration. -/
def callbackConfigErrorResponse : Response :=
  { statusCode := 500
    headers := [(("Content-Type".data), ("text/html".data))]
    body := generateErrorHTML ("Server configuration error".data) }

/-- The callback handler's response when the provider reported an `error`
query parameter: 400 HTML quoting the provider's error value. -/
def githubErrorResponse (env : Env) (ev : Event) (error : Str) : Response :=
  { statusCode := 400
    headers := corsHeaders env ev ++ [(("Content-Type".data), ("text/html".data))]
    body := generateErrorHTML (("GitHub error: ".data) ++ error) }

/-- The callback handler's response when `code` or `state` is missing. -/
def missingParamsResponse (env : Env) (ev : Event) : Response :=
  { statusCode := 400
    headers := corsHeaders env ev ++ [(("Content-Type".data), ("text/html".data))]
    body := generateErrorHTML ("Missing authorization code or state".data) }

/-- The callback handler's CSRF-failure response. -/
def csrfFailureResponse (env : Env) (ev : Event) : Response :=
  { statusCode := 400
    headers := corsHeaders env ev ++ [(("Content-Type".data), ("text/html".data))]
    body := generateErrorHTML ("Invalid state parameter - possible CSRF attack".data) }

/-- The callback handler's catch-all response for exceptions thrown inside
its `try` block (a malformed cookie value, or a failed `fetch`). -/
def internalErrorResponse (env : Env) (ev : Event) : Response :=
  { statusCode := 500
    headers := corsHeaders env ev ++ [(("Content-Type".data), ("text/html".data))]
    body := generateErrorHTML ("Internal server error".data) }

/-- Project extraction from a validated state token
(`const [, project = 'create'] = state.split(':')`): the second segment of
the full split, defaulting to `create` only when it does not exist. -/
def extractProjectFromState (state : Str) : Str :=
  ((splitAllOn ':' state).get? 1).getD ("create".data)

/-- Data the callback handler carries into the token exchange: the inputs of
the outbound POST to GitHub's token endpoint and the already-resolved
frontend origin. -/
structure ExchangeState where
  code : Str
  state : Str
  project : Str
  frontendOrigin : Str
deriving DecidableEq

/-- Parsed JSON body of the token-exchange response. -/
structure TokenData where
  error : Option Str := none
  error_description : Option Str := none
  access_token : Option Str := none
deriving DecidableEq

/-- Pre-exchange phase of the callback handler
(src/handlers/oauth-callback.js): configuration check, provider `error`
check, `code`/`state` presence check, then CSRF validation against the
decoded cookie — each failing check is terminal (`Sum.inl`), and only a fully
validated request reaches the token exchange (`Sum.inr`).  A `URIError`
thrown while decoding the cookie is caught by the handler's `try`/`catch`
and becomes the 500 internal-error response. -/
def callbackPre (env : Env) (ev : Event) : Sum Response ExchangeState :=
  if !validConfig env then Sum.inl callbackConfigErrorResponse
  else if jsTruthy (eventQS ev).error then
    Sum.inl (githubErrorResponse env ev ((eventQS ev).error.getD []))
  else if !(jsTruthy (eventQS ev).code && jsTruthy (eventQS ev).state) then
    Sum.inl (missingParamsResponse env ev)
  else
    match extractStateFromCookies ev with
    | none => Sum.inl (internalErrorResponse env ev)
    | some storedState =>
      if storedState ≠ some ((eventQS ev).state.getD []) then
        Sum.inl (csrfFailureResponse env ev)
      else
        Sum.inr
          { code := (eventQS ev).code.getD []
            state := (eventQS ev).state.getD []
            project := extractProjectFromState ((eventQS ev).state.getD [])
            frontendOrigin :=
              getFrontendOrigin env (extractProjectFromState ((eventQS ev).state.getD [])) }

/-- The callback handler's response when the token exchange reported an
error: 400 HTML with `error_description || error` interpolated (the template
literal renders a JS `undefined` as the string `undefined`). -/
def tokenErrorResponse (env : Env) (ev : Event) (td : TokenData) : Response :=
  { statusCode := 400
    headers := corsHeaders env ev ++ [(("Content-Type".data), ("text/html".data))]
    body := generateErrorHTML (("Failed to obtain access token: ".data) ++
      (match jsOrOpt td.error_description td.error with
       | some s => s
       | none => ("undefined".data))) }

/-- The callback handler's response when the token exchange returned no
`access_token` field. -/
def noTokenResponse (env : Env) (ev : Event) : Response :=
  { statusCode := 400
    headers := corsHeaders env ev ++ [(("Content-Type".data), ("text/html".data))]
    body := generateErrorHTML ("No access token received from GitHub".data) }

/-- The callback handler's success response: 200, HTML content type, the
cache-disabling header, and the post-message document. -/
def successResponse (env : Env) (ev : Event) (accessToken frontendOrigin : Str) : Response :=
  { statusCode := 200
    headers := corsHeaders env ev ++
      [(("Content-Type".data), ("text/html".data)),
       (("Cache-Control".data), ("no-store, no-cache, must-revalidate".data))]
    body := generatePostMessageHTML accessToken frontendOrigin }

/-- Post-exchange phase of the callback handler: inspect the parsed token
response in source order (`error` truthiness, `access_token` truthiness),
then deliver the token. -/
def callbackPost (env : Env) (ev : Event) (ex : ExchangeState) (td : TokenData) : Response :=
  if jsTruthy td.error then tokenErrorResponse env ev td
  else if !jsTruthy td.access_token then noTokenResponse env ev
  else successResponse env ev (td.access_token.getD []) ex.frontendOrigin

/-- Full callback handler.  `fetchResult` models the outcome of the outbound
token exchange: `none` is a thrown network error (caught and turned into the
500 internal-error response), `some td` the parsed JSON body. -/
def callbackHandler (env : Env) (ev : Event) (fetchResult : Option TokenData) : Response :=
  match callbackPre env ev with
  | Sum.inl r => r
  | Sum.inr ex =>
    match fetchResult with
    | none => internalErrorResponse env ev
    | some td => callbackPost env ev ex td

/-- Modelled from the spec: the cookie decoder as claim C7 words it —
"splits each pair on the first `=`", so the value of `a=b=c` would be `b=c`.
Used only to compare against the source's `parseCookies`, which splits on
every `=` and keeps just the first two segments. -/
def parseCookiesListClaimC7 : List Str → Option (List (Str × Str))
  | [] => some []
  | p :: rest =>
    match (splitFirstOn '=' (jsTrim p)).2 with
    | some v =>
      if (splitFirstOn '=' (jsTrim p)).1 ≠ [] ∧ v ≠ [] then
        match decodeURIComponent v with
        | none => none
        | some dv =>
          (parseCookiesListClaimC7 rest).map (fun l => ((splitFirstOn '=' (jsTrim p)).1, dv) :: l)
      else parseCookiesListClaimC7 rest
    | none => parseCookiesListClaimC7 rest

/-- Modelled from the spec: claim C7's decoder on a raw header string. -/
def parseCookiesStrClaimC7 (s : Str) : Option (List (Str × Str)) :=
  parseCookiesListClaimC7 (splitAllOn ';' s)

/-- The amended description of the source decoder: each trimmed pair is
split at the first `=`, and the value is additionally truncated at the next
`=` (the destructuring `[name, value] = cookie.trim().split('=')` discards
every segment after the second). -/
def parseCookiesListAmended : List Str → Option (List (Str × Str))
  | [] => some []
  | p :: rest =>
    match (splitFirstOn '=' (jsTrim p)).2 with
    | some after =>
      if (splitFirstOn '=' (jsTrim p)).1 ≠ [] ∧ (splitFirstOn '=' after).1 ≠ [] then
        match decodeURIComponent ((splitFirstOn '=' after).1) with
        | none => none
        | some dv =>
          (parseCookiesListAmended rest).map
            (fun l => ((splitFirstOn '=' (jsTrim p)).1, dv) :: l)
      else parseCookiesListAmended rest
    | none => parseCookiesListAmended rest

/-- The amended decoder on a raw header string. -/
def parseCookiesStrAmended (s : Str) : Option (List (Str × Str)) :=
  parseCookiesListAmended (splitAllOn ';' s)

/-- Environment with both GitHub credentials present (used by witnesses). -/
def envOk : Env :=
  { githubClientId := some ("id".data), githubClientSecret := some ("secret".data) }

/-- Environment with no GitHub credentials at all (used by witnesses). -/
def envMissingBoth : Env := {}

/-- An event carrying nothing (used by witnesses). -/
def evEmpty : Event := {}

/-- Callback event whose cookie decodes to a value different from `state`. -/
def evCsrfMismatch : Event :=
  { qs := some { code := some ("abc".data), state := some ("xyz:create".data) }
    cookieL := some ("oauth_state=other".data) }

/-- Callback event whose cookie decodes exactly to its `state` parameter. -/
def evCallbackOk : Event :=
  { qs := some { code := some ("abc".data), state := some ("xyz:create".data) }
    cookieL := some ("oauth_state=xyz%3Acreate".data) }

/-- Callback event carrying a provider error parameter. -/
def evGithubError : Event :=
  { qs := some { error := some ("access_denied".data) } }

/-- Login event with method GET. -/
def evLoginGet : Event := { httpMethod := some ("GET".data) }

/-- Login event with method POST. -/
def evLoginPost : Event := { httpMethod := some ("POST".data) }

/-- Login event with method OPTIONS. -/
def evLoginOptions : Event := { httpMethod := some ("OPTIONS".data) }

/-- Login event with method GET and an unregistered `project` parameter. -/
def evLoginUnknownProject : Event :=
  { httpMethod := some ("GET".data), qs := some { project := some ("nope".data) } }

/-- Token response carrying an access token and no error. -/
def tdOk : TokenData := { access_token := some ("tok123".data) }


theorem hexv_uc : ∀ k, k < 16 → hexCharVal (ucHexChar k) = some k := by decide

theorem char_toNat_valid (c : Char) :
    c.toNat < 55296 ∨ (57343 < c.toNat ∧ c.toNat < 1114112) := by
  rcases c.valid with h | ⟨h1, h2⟩
  · exact Or.inl (UInt32.toNat_lt_of_lt (by decide) h)
  · exact Or.inr ⟨UInt32.lt_toNat_of_lt (by decide) h1, UInt32.toNat_lt_of_lt (by decide) h2⟩

theorem pctTokens_cons_not_pct {c : Char} (h : c ≠ '%') (rest : Str) :
    pctTokens (c :: rest) = (pctTokens rest).map (fun l => Sum.inl c :: l) := by
  rw [pctTokens.eq_def]
  simp only []
  rw [if_neg h]

theorem pctTokens_pctEncBytes (bs : List Nat) (hb : ∀ b ∈ bs, b < 256) (rest : Str) :
    pctTokens (pctEncBytes bs ++ rest) = (pctTokens rest).map (fun l => bs.map Sum.inr ++ l) := by
  induction bs with
  | nil =>
    simp only [pctEncBytes, List.nil_append, List.map_nil]
    cases pctTokens rest <;> simp
  | cons b t ih =>
    have hblt : b < 256 := hb b (by simp)
    have h1 : hexCharVal (ucHexChar (b / 16)) = some (b / 16) := hexv_uc _ (by omega)
    have h2 : hexCharVal (ucHexChar (b % 16)) = some (b % 16) := hexv_uc _ (Nat.mod_lt _ (by omega))
    rw [pctEncBytes]
    simp only [List.cons_append]
    rw [pctTokens.eq_def]
    simp only [if_true]
    simp only [h1, h2, ih (fun x hx => hb x (by simp [hx]))]
    rw [show 16 * (b / 16) + b % 16 = b from Nat.div_add_mod b 16]
    cases pctTokens rest <;> simp

theorem utf8Bytes_lt (n : Nat) (h : n < 1114112) : ∀ b ∈ utf8Bytes n, b < 256 := by
  intro b hb
  rw [utf8Bytes] at hb
  by_cases h1 : n < 128
  · rw [if_pos h1] at hb
    simp only [List.mem_singleton] at hb
    omega
  · rw [if_neg h1] at hb
    by_cases h2 : n < 2048
    · rw [if_pos h2] at hb
      simp only [List.mem_cons, List.mem_singleton] at hb
      rcases hb with rfl | rfl | hb <;> first | omega | cases hb
    · rw [if_neg h2] at hb
      by_cases h3 : n < 65536
      · rw [if_pos h3] at hb
        simp only [List.mem_cons, List.mem_singleton] at hb
        rcases hb with rfl | rfl | rfl | hb <;> first | omega | cases hb
      · rw [if_neg h3] at hb
        simp only [List.mem_cons, List.mem_singleton] at hb
        rcases hb with rfl | rfl | rfl | rfl | hb <;> first | omega | cases hb

theorem utf8Asm_inl (c : Char) (t : List (Sum Char Nat)) :
    utf8Asm (Sum.inl c :: t) = (utf8Asm t).map (fun s => c :: s) := rfl

theorem utf8Asm_nil : utf8Asm [] = some [] := rfl

theorem utf8Asm_utf8Bytes (n : Nat)
    (hv : n < 55296 ∨ (57343 < n ∧ n < 1114112)) (toks : List (Sum Char Nat)) :
    utf8Asm ((utf8Bytes n).map Sum.inr ++ toks) =
      (utf8Asm toks).map (fun s => Char.ofNat n :: s) := by
  by_cases h1 : n < 128
  · rw [show utf8Bytes n = [n] from by rw [utf8Bytes, if_pos h1]]
    simp only [List.map_cons, List.map_nil, List.cons_append, List.nil_append]
    rw [utf8Asm.eq_def]
    simp only []
    rw [if_pos h1]
  · by_cases h2 : n < 2048
    · rw [show utf8Bytes n = [192 + n / 64, 128 + n % 64] from by
        rw [utf8Bytes, if_neg h1, if_pos h2]]
      simp only [List.map_cons, List.map_nil, List.cons_append, List.nil_append]
      rw [utf8Asm.eq_def]
      simp only []
      rw [if_neg (by omega), if_neg (by omega), if_pos (by omega)]
      rw [utf8Asm2.eq_def]
      simp only []
      rw [if_pos (by constructor; omega; constructor; omega; omega)]
      rw [show (192 + n / 64 - 192) * 64 + (128 + n % 64 - 128) = n from by omega]
    · by_cases h3 : n < 65536
      · rw [show utf8Bytes n = [224 + n / 4096, 128 + n / 64 % 64, 128 + n % 64] from by
          rw [utf8Bytes, if_neg h1, if_neg h2, if_pos h3]]
        simp only [List.map_cons, List.map_nil, List.cons_append, List.nil_append]
        rw [utf8Asm.eq_def]
        simp only []
        rw [if_neg (by omega), if_neg (by omega), if_neg (by omega), if_pos (by omega)]
        rw [utf8Asm3.eq_def]
        simp only []
        have e1 : n / 64 / 64 = n / 4096 := by rw [Nat.div_div_eq_div_mul]
        have e3 := Nat.div_add_mod n 64
        have e4 := Nat.div_add_mod (n / 64) 64
        have hrec : (224 + n / 4096 - 224) * 4096 + (128 + n / 64 % 64 - 128) * 64 +
            (128 + n % 64 - 128) = n := by omega
        rw [if_pos (by refine ⟨by omega, by omega, by omega, by omega, by omega, by omega⟩)]
        rw [hrec]
      · have h4 : n < 1114112 := by omega
        rw [show utf8Bytes n =
            [240 + n / 262144, 128 + n / 4096 % 64, 128 + n / 64 % 64, 128 + n % 64] from by
          rw [utf8Bytes, if_neg h1, if_neg h2, if_neg h3]]
        simp only [List.map_cons, List.map_nil, List.cons_append, List.nil_append]
        rw [utf8Asm.eq_def]
        simp only []
        rw [if_neg (by omega), if_neg (by omega), if_neg (by omega), if_neg (by omega),
          if_pos (by omega)]
        rw [utf8Asm4.eq_def]
        simp only []
        have e1 : n / 64 / 64 = n / 4096 := by rw [Nat.div_div_eq_div_mul]
        have e2 : n / 4096 / 64 = n / 262144 := by rw [Nat.div_div_eq_div_mul]
        have e3 := Nat.div_add_mod n 64
        have e4 := Nat.div_add_mod (n / 64) 64
        have e5 := Nat.div_add_mod (n / 4096) 64
        have hrec : (240 + n / 262144 - 240) * 262144 + (128 + n / 4096 % 64 - 128) * 4096 +
            (128 + n / 64 % 64 - 128) * 64 + (128 + n % 64 - 128) = n := by omega
        rw [if_pos (by
          refine ⟨by omega, by omega, by omega, by omega, by omega, by omega, by omega, by omega⟩)]
        rw [hrec]

theorem uriUnreserved_ne_pct {c : Char} (h : uriUnreserved c = true) : c ≠ '%' := by
  intro e
  subst e
  revert h
  decide

theorem decode_encChar_append (c : Char) (rest : Str) :
    decodeURIComponent (encChar c ++ rest) = (decodeURIComponent rest).map (fun t => c :: t) := by
  rw [encChar]
  by_cases h : uriUnreserved c
  · rw [if_pos h]
    show decodeURIComponent (c :: rest) = _
    rw [decodeURIComponent, decodeURIComponent, pctTokens_cons_not_pct (uriUnreserved_ne_pct h)]
    cases pctTokens rest with
    | none => simp
    | some l => simp [utf8Asm_inl]
  · rw [if_neg h]
    have hval := char_toNat_valid c
    rw [decodeURIComponent, decodeURIComponent,
      pctTokens_pctEncBytes _ (utf8Bytes_lt _ (by omega)) _]
    cases pctTokens rest with
    | none => simp
    | some l =>
      simp only [Option.map_some', Option.some_bind]
      rw [utf8Asm_utf8Bytes c.toNat hval l, Char.ofNat_toNat]

theorem decode_enc_append (s rest : Str) :
    decodeURIComponent (encodeURIComponent s ++ rest) =
      (decodeURIComponent rest).map (fun t => s ++ t) := by
  induction s with
  | nil =>
    simp only [encodeURIComponent, List.nil_append]
    cases decodeURIComponent rest <;> simp
  | cons c t ih =>
    rw [encodeURIComponent]
    rw [List.append_assoc, decode_encChar_append, ih]
    cases decodeURIComponent rest <;> simp

theorem decode_encode (s : Str) : decodeURIComponent (encodeURIComponent s) = some s := by
  have := decode_enc_append s []
  simp only [List.append_nil] at this
  rw [this, show decodeURIComponent ([] : Str) = some [] from rfl]
  simp

theorem uc_unreserved : ∀ k, k < 16 → uriUnreserved (ucHexChar k) = true := by decide

theorem mem_pctEncBytes {c : Char} {bs : List Nat} (hb : ∀ b ∈ bs, b < 256)
    (h : c ∈ pctEncBytes bs) : c = '%' ∨ uriUnreserved c = true := by
  induction bs with
  | nil => rw [pctEncBytes] at h; cases h
  | cons b t ih =>
    have hblt : b < 256 := hb b (by simp)
    rw [pctEncBytes] at h
    simp only [List.mem_cons] at h
    rcases h with rfl | rfl | rfl | h
    · exact Or.inl rfl
    · exact Or.inr (uc_unreserved _ (by omega))
    · exact Or.inr (uc_unreserved _ (Nat.mod_lt _ (by omega)))
    · exact ih (fun x hx => hb x (by simp [hx])) h

theorem mem_encChar {c d : Char} (h : c ∈ encChar d) : c = '%' ∨ uriUnreserved c = true := by
  rw [encChar] at h
  by_cases hu : uriUnreserved d
  · rw [if_pos hu] at h
    simp only [List.mem_singleton] at h
    subst h
    exact Or.inr hu
  · rw [if_neg hu] at h
    have hval := char_toNat_valid d
    exact mem_pctEncBytes (utf8Bytes_lt _ (by omega)) h

theorem mem_encodeURIComponent {c : Char} {s : Str} (h : c ∈ encodeURIComponent s) :
    c = '%' ∨ uriUnreserved c = true := by
  induction s with
  | nil => rw [encodeURIComponent] at h; cases h
  | cons d t ih =>
    rw [encodeURIComponent] at h
    rcases List.mem_append.1 h with h | h
    · exact mem_encChar h
    · exact ih h

theorem encChar_ne_nil (c : Char) : encChar c ≠ [] := by
  rw [encChar]
  by_cases h : uriUnreserved c
  · rw [if_pos h]; simp
  · rw [if_neg h, utf8Bytes]
    split
    · simp [pctEncBytes]
    · split
      · simp [pctEncBytes]
      · split <;> simp [pctEncBytes]

theorem encodeURIComponent_ne_nil {s : Str} (h : s ≠ []) : encodeURIComponent s ≠ [] := by
  cases s with
  | nil => exact absurd rfl h
  | cons c t =>
    rw [encodeURIComponent]
    intro he
    exact encChar_ne_nil c (List.append_eq_nil.1 he).1

theorem uriUnreserved_ranges {c : Char} (h : uriUnreserved c = true) :
    (48 ≤ c.toNat ∧ c.toNat ≤ 57) ∨ (65 ≤ c.toNat ∧ c.toNat ≤ 90) ∨
    (97 ≤ c.toNat ∧ c.toNat ≤ 122) ∨ c.toNat = 45 ∨ c.toNat = 95 ∨ c.toNat = 46 ∨
    c.toNat = 33 ∨ c.toNat = 126 ∨ c.toNat = 42 ∨ c.toNat = 39 ∨ c.toNat = 40 ∨
    c.toNat = 41 := by
  simp only [uriUnreserved, Bool.or_eq_true, Bool.and_eq_true, decide_eq_true_eq] at h
  repeat' rcases h with h | h
  all_goals first | omega | decide

theorem encSafe {c : Char} (h : c = '%' ∨ uriUnreserved c = true) :
    c ≠ ';' ∧ c ≠ '=' ∧ isJsSpace c = false := by
  have hn : c.toNat = 37 ∨ ((48 ≤ c.toNat ∧ c.toNat ≤ 57) ∨ (65 ≤ c.toNat ∧ c.toNat ≤ 90) ∨
      (97 ≤ c.toNat ∧ c.toNat ≤ 122) ∨ c.toNat = 45 ∨ c.toNat = 95 ∨ c.toNat = 46 ∨
      c.toNat = 33 ∨ c.toNat = 126 ∨ c.toNat = 42 ∨ c.toNat = 39 ∨ c.toNat = 40 ∨
      c.toNat = 41) := by
    rcases h with h | h
    · exact Or.inl (by subst h; rfl)
    · exact Or.inr (uriUnreserved_ranges h)
  refine ⟨?_, ?_, ?_⟩
  · intro e
    subst e
    exact absurd hn (by decide)
  · intro e
    subst e
    exact absurd hn (by decide)
  · by_contra hsp
    rw [Bool.not_eq_false] at hsp
    simp only [isJsSpace, Bool.or_eq_true, Bool.and_eq_true, decide_eq_true_eq] at hsp
    omega

theorem splitAllOnAux_no_sep {c : Char} {s : Str} (h : ∀ x ∈ s, x ≠ c) (acc : Str) :
    splitAllOnAux c s acc = [acc.reverse ++ s] := by
  induction s generalizing acc with
  | nil => simp [splitAllOnAux]
  | cons a t ih =>
    rw [splitAllOnAux]
    rw [if_neg (h a (by simp)), ih (fun x hx => h x (by simp [hx])) (a :: acc)]
    simp

theorem splitAllOn_no_sep {c : Char} {s : Str} (h : ∀ x ∈ s, x ≠ c) :
    splitAllOn c s = [s] := by
  rw [splitAllOn, splitAllOnAux_no_sep h]
  simp

theorem splitAllOnAux_sep {c : Char} {a b : Str} (h : ∀ x ∈ a, x ≠ c) (acc : Str) :
    splitAllOnAux c (a ++ c :: b) acc = (acc.reverse ++ a) :: splitAllOnAux c b [] := by
  induction a generalizing acc with
  | nil =>
    simp only [List.nil_append]
    rw [splitAllOnAux, if_pos rfl]
    simp
  | cons d t ih =>
    rw [List.cons_append, splitAllOnAux, if_neg (h d (by simp)),
      ih (fun x hx => h x (by simp [hx])) (d :: acc)]
    simp

theorem splitAllOn_single_sep {c : Char} {a b : Str} (ha : ∀ x ∈ a, x ≠ c)
    (hb : ∀ x ∈ b, x ≠ c) : splitAllOn c (a ++ c :: b) = [a, b] := by
  rw [splitAllOn, splitAllOnAux_sep ha, splitAllOnAux_no_sep hb]
  simp

theorem dropWhile_no_match {p : Char → Bool} {s : Str} (h : ∀ x ∈ s, p x = false) :
    s.dropWhile p = s := by
  cases s with
  | nil => rfl
  | cons a t =>
    rw [List.dropWhile_cons, h a (by simp)]
    simp

theorem jsTrim_no_space {s : Str} (h : ∀ x ∈ s, isJsSpace x = false) : jsTrim s = s := by
  rw [jsTrim, dropWhile_no_match h,
    dropWhile_no_match (fun x hx => h x (List.mem_reverse.1 hx)), List.reverse_reverse]

theorem hexOfBytes_length (bs : List Nat) : (hexOfBytes bs).length = 2 * bs.length := by
  induction bs with
  | nil => rfl
  | cons b t ih =>
    rw [hexOfBytes]
    simp only [List.length_cons, ih]
    omega

theorem lc_hex_digit : ∀ k, k < 16 → isLcHexDigit (lcHexChar k) = true := by decide

theorem mem_hexOfBytes {c : Char} {bs : List Nat} (hb : ∀ b ∈ bs, b < 256)
    (h : c ∈ hexOfBytes bs) : isLcHexDigit c = true := by
  induction bs with
  | nil => rw [hexOfBytes] at h; cases h
  | cons b t ih =>
    have hblt : b < 256 := hb b (by simp)
    rw [hexOfBytes] at h
    simp only [List.mem_cons] at h
    rcases h with rfl | rfl | h
    · exact lc_hex_digit _ (by omega)
    · exact lc_hex_digit _ (Nat.mod_lt _ (by omega))
    · exact ih (fun x hx => hb x (by simp [hx])) h

theorem isLcHexDigit_ne_colon {c : Char} (h : isLcHexDigit c = true) : c ≠ ':' := by
  intro e
  subst e
  exact absurd h (by decide)

theorem extractProject_token {h p : Str} (hh : ∀ x ∈ h, x ≠ ':') (hp : ∀ x ∈ p, x ≠ ':') :
    extractProjectFromState (h ++ ':' :: p) = p := by
  rw [extractProjectFromState, splitAllOn_single_sep hh hp]
  rfl

theorem createCookieHeader_empty (name v : Str) :
    createCookieHeader name v emptyCookieOptions = name ++ '=' :: encodeURIComponent v := by
  rw [createCookieHeader]
  simp [emptyCookieOptions]

theorem parseCookies_enc_pair {name v : Str} (hname : name ≠ [])
    (hn : ∀ x ∈ name, x ≠ '=' ∧ x ≠ ';' ∧ isJsSpace x = false) (hv : v ≠ []) :
    parseCookiesStr (createCookieHeader name v emptyCookieOptions) = some [(name, v)] := by
  have hsafe : ∀ x ∈ encodeURIComponent v, x ≠ ';' ∧ x ≠ '=' ∧ isJsSpace x = false :=
    fun x hx => encSafe (mem_encodeURIComponent hx)
  rw [createCookieHeader_empty, parseCookiesStr]
  rw [splitAllOn_no_sep (by
    intro x hx
    rcases List.mem_append.1 hx with hx | hx
    · exact (hn x hx).2.1
    · rcases List.mem_cons.1 hx with rfl | hx
      · decide
      · exact (hsafe x hx).1)]
  rw [parseCookiesList]
  rw [jsTrim_no_space (by
    intro x hx
    rcases List.mem_append.1 hx with hx | hx
    · exact (hn x hx).2.2
    · rcases List.mem_cons.1 hx with rfl | hx
      · decide
      · exact (hsafe x hx).2.2)]
  rw [splitAllOn_single_sep (fun x hx => (hn x hx).1) (fun x hx => (hsafe x hx).2.1)]
  simp only [List.headD, List.get?]
  rw [if_pos ⟨hname, encodeURIComponent_ne_nil hv⟩, decode_encode, parseCookiesList]
  rfl

theorem allowedOrigins_ne_nil (env : Env) : allowedOrigins env ≠ [] := by
  rw [allowedOrigins, projectsTable]
  cases hp : isProduction env <;>
    simp [createProject, promptsProject, hp, List.filter]

theorem lookupFirst_projects_create (env : Env) {p : Str} (h : ("create".data) = p) :
    lookupFirst p (projectsTable env) = some (createProject env) := by
  rw [projectsTable, lookupFirst, if_pos h]

theorem lookupFirst_projects_prompts (env : Env) {p : Str} (h1 : ¬ ("create".data) = p)
    (h2 : ("prompts".data) = p) :
    lookupFirst p (projectsTable env) = some (promptsProject env) := by
  rw [projectsTable, lookupFirst, if_neg h1, lookupFirst, if_pos h2]

theorem lookupFirst_projects_none (env : Env) {p : Str} (h1 : ¬ ("create".data) = p)
    (h2 : ¬ ("prompts".data) = p) :
    lookupFirst p (projectsTable env) = none := by
  rw [projectsTable, lookupFirst, if_neg h1, lookupFirst, if_neg h2, lookupFirst]

theorem getFrontendOrigin_cases (env : Env) (p : Str) :
    getFrontendOrigin env p = (createProject env).frontendUrl ∨
      getFrontendOrigin env p = (promptsProject env).frontendUrl := by
  rw [getFrontendOrigin]
  by_cases h1 : ("create".data) = p
  · rw [lookupFirst_projects_create env h1]
    left; rfl
  · by_cases h2 : ("prompts".data) = p
    · rw [lookupFirst_projects_prompts env h1 h2]
      right; rfl
    · rw [lookupFirst_projects_none env h1 h2]
      left; rfl

theorem getFrontendOrigin_ne_star (env : Env) (p : Str) :
    getFrontendOrigin env p ≠ ("*".data) := by
  rcases getFrontendOrigin_cases env p with h | h <;> rw [h] <;>
    cases hp : isProduction env <;>
    simp [createProject, promptsProject, hp]

theorem getFrontendOrigin_unknown (env : Env) {p : Str} (h1 : p ≠ ("create".data))
    (h2 : p ≠ ("prompts".data)) :
    getFrontendOrigin env p = (createProject env).frontendUrl := by
  rw [getFrontendOrigin, lookupFirst_projects_none env (fun e => h1 e.symm) (fun e => h2 e.symm)]

theorem callbackPre_inr (env : Env) (ev : Event) (ex : ExchangeState)
    (h : callbackPre env ev = Sum.inr ex) :
    validConfig env = true ∧ jsTruthy (eventQS ev).error = false ∧
      jsTruthy (eventQS ev).code = true ∧ jsTruthy (eventQS ev).state = true ∧
      extractStateFromCookies ev = some (some ((eventQS ev).state.getD [])) ∧
      ex = { code := (eventQS ev).code.getD []
             state := (eventQS ev).state.getD []
             project := extractProjectFromState ((eventQS ev).state.getD [])
             frontendOrigin :=
               getFrontendOrigin env (extractProjectFromState ((eventQS ev).state.getD [])) } := by
  rw [callbackPre] at h
  cases hval : validConfig env with
  | false =>
    rw [hval] at h
    exact Sum.noConfusion h
  | true =>
    rw [hval] at h
    rw [if_neg (by decide)] at h
    cases herr : jsTruthy (eventQS ev).error with
    | true =>
      rw [herr, if_pos rfl] at h
      exact Sum.noConfusion h
    | false =>
      rw [herr, if_neg (by decide)] at h
      cases hcode : jsTruthy (eventQS ev).code with
      | false =>
        rw [hcode, if_pos (by simp)] at h
        exact Sum.noConfusion h
      | true =>
        rw [hcode] at h
        cases hstate : jsTruthy (eventQS ev).state with
        | false =>
          rw [hstate, if_pos (by simp)] at h
          exact Sum.noConfusion h
        | true =>
          rw [hstate, if_neg (by simp)] at h
          cases hst : extractStateFromCookies ev with
          | none =>
            rw [hst] at h
            exact Sum.noConfusion h
          | some storedState =>
            rw [hst] at h
            simp only [] at h
            by_cases hmis : storedState = some ((eventQS ev).state.getD [])
            · rw [if_neg (by simpa using hmis)] at h
              subst hmis
              exact ⟨rfl, rfl, rfl, rfl, rfl, (Sum.inr.inj h).symm⟩
            · rw [if_pos hmis] at h
              exact Sum.noConfusion h

theorem callbackPre_config_err (env : Env) (ev : Event) (h : validConfig env = false) :
    callbackPre env ev = Sum.inl callbackConfigErrorResponse := by
  rw [callbackPre, h]
  rfl

theorem callbackPre_github_err (env : Env) (ev : Event) (hval : validConfig env = true)
    (herr : jsTruthy (eventQS ev).error = true) :
    callbackPre env ev = Sum.inl (githubErrorResponse env ev ((eventQS ev).error.getD [])) := by
  rw [callbackPre, hval, herr]
  rfl

theorem callbackPre_missing (env : Env) (ev : Event) (hval : validConfig env = true)
    (herr : jsTruthy (eventQS ev).error = false)
    (hcs : (jsTruthy (eventQS ev).code && jsTruthy (eventQS ev).state) = false) :
    callbackPre env ev = Sum.inl (missingParamsResponse env ev) := by
  rw [callbackPre, hval, herr, hcs]
  rfl

theorem callbackPre_throw (env : Env) (ev : Event) (hval : validConfig env = true)
    (herr : jsTruthy (eventQS ev).error = false)
    (hcode : jsTruthy (eventQS ev).code = true) (hstate : jsTruthy (eventQS ev).state = true)
    (hst : extractStateFromCookies ev = none) :
    callbackPre env ev = Sum.inl (internalErrorResponse env ev) := by
  rw [callbackPre, hval, herr, hcode, hstate, hst]
  rfl

theorem callbackPre_csrf (env : Env) (ev : Event) (r : Option Str)
    (hval : validConfig env = true) (herr : jsTruthy (eventQS ev).error = false)
    (hcode : jsTruthy (eventQS ev).code = true) (hstate : jsTruthy (eventQS ev).state = true)
    (hst : extractStateFromCookies ev = some r)
    (hmis : r ≠ some ((eventQS ev).state.getD [])) :
    callbackPre env ev = Sum.inl (csrfFailureResponse env ev) := by
  rw [callbackPre, hval, herr, hcode, hstate, hst]
  rw [if_neg (by decide), if_neg (by decide), if_neg (by decide)]
  simp only []
  rw [if_pos hmis]

theorem callbackPre_pass (env : Env) (ev : Event)
    (hval : validConfig env = true) (herr : jsTruthy (eventQS ev).error = false)
    (hcode : jsTruthy (eventQS ev).code = true) (hstate : jsTruthy (eventQS ev).state = true)
    (hst : extractStateFromCookies ev = some (some ((eventQS ev).state.getD []))) :
    callbackPre env ev =
      Sum.inr
        { code := (eventQS ev).code.getD []
          state := (eventQS ev).state.getD []
          project := extractProjectFromState ((eventQS ev).state.getD [])
          frontendOrigin :=
            getFrontendOrigin env (extractProjectFromState ((eventQS ev).state.getD [])) } := by
  rw [callbackPre, hval, herr, hcode, hstate, hst]
  rw [if_neg (by decide), if_neg (by decide), if_neg (by decide)]
  simp only []
  rw [if_neg (by simp)]

theorem callbackPre_inl_status (env : Env) (ev : Event) (r : Response)
    (h : callbackPre env ev = Sum.inl r) : r.statusCode = 400 ∨ r.statusCode = 500 := by
  rw [callbackPre] at h
  repeat' split at h
  all_goals try exact Sum.noConfusion h
  all_goals cases (Sum.inl.inj h)
  all_goals first | exact Or.inl rfl | exact Or.inr rfl

theorem callbackHandler_status (env : Env) (ev : Event) (fr : Option TokenData) :
    (callbackHandler env ev fr).statusCode = 200 ∨ (callbackHandler env ev fr).statusCode = 400 ∨
      (callbackHandler env ev fr).statusCode = 500 := by
  rw [callbackHandler]
  cases hpre : callbackPre env ev with
  | inl r =>
    simp only []
    rcases callbackPre_inl_status env ev r hpre with h | h
    · exact Or.inr (Or.inl h)
    · exact Or.inr (Or.inr h)
  | inr ex =>
    cases fr with
    | none => exact Or.inr (Or.inr rfl)
    | some td =>
      simp only [callbackPost]
      cases he : jsTruthy td.error with
      | true =>
        rw [if_pos rfl]
        exact Or.inr (Or.inl rfl)
      | false =>
        rw [if_neg (by decide)]
        cases ha : jsTruthy td.access_token with
        | false => exact Or.inr (Or.inl rfl)
        | true => exact Or.inl rfl

theorem loginHandler_config_err (env : Env) (ev : Event) (rand : List Nat)
    (h : validConfig env = false) :
    loginHandler env ev rand = loginConfigErrorResponse env := by
  rw [loginHandler, h]
  rfl

theorem loginHandler_options (env : Env) (ev : Event) (rand : List Nat)
    (hval : validConfig env = true) (hm : resolvedMethod ev = some ("OPTIONS".data)) :
    loginHandler env ev rand = preflightResponse env ev := by
  rw [loginHandler, hval, hm]
  rw [if_neg (by decide), if_pos rfl]

theorem loginHandler_not_allowed (env : Env) (ev : Event) (rand : List Nat)
    (hval : validConfig env = true) (hm1 : resolvedMethod ev ≠ some ("OPTIONS".data))
    (hm2 : resolvedMethod ev ≠ some ("GET".data)) :
    loginHandler env ev rand = methodNotAllowedResponse env ev := by
  rw [loginHandler, hval]
  rw [if_neg (by decide), if_neg hm1, if_pos hm2]

theorem loginHandler_redirect (env : Env) (ev : Event) (rand : List Nat)
    (hval : validConfig env = true) (hm : resolvedMethod ev = some ("GET".data)) :
    loginHandler env ev rand =
      { statusCode := 302
        headers := corsHeaders env ev ++
          [(("Location".data), githubAuthUrl env (stateToken rand (loginProjectOf ev)))]
        body := []
        cookies := [createCookieHeader ("oauth_state".data)
          (stateToken rand (loginProjectOf ev)) (getCookieOptions env.nodeEnv)] } := by
  rw [loginHandler, hval, hm]
  rw [if_neg (by decide), if_neg (by decide), if_neg (by decide)]

theorem createCookieHeader_getCookieOptions (ne : Option Str) (tok : Str) :
    createCookieHeader ("oauth_state".data) tok (getCookieOptions ne) =
      ("oauth_state=".data) ++ encodeURIComponent tok ++
        (if decide (ne = some ("production".data)) then
          ("; HttpOnly; Secure; SameSite=Lax; Max-Age=600; Path=/".data)
         else ("; HttpOnly; SameSite=Lax; Max-Age=600; Path=/".data)) := by
  cases h : decide (ne = some ("production".data)) with
  | false =>
    simp only [createCookieHeader, getCookieOptions, h]
    simp [List.append_assoc, show natToStr 600 = ('6' :: '0' :: '0' :: []) from rfl]
  | true =>
    simp only [createCookieHeader, getCookieOptions, h]
    simp [List.append_assoc, show natToStr 600 = ('6' :: '0' :: '0' :: []) from rfl]

theorem strStartsWith_nil (s : Str) : strStartsWith s [] = true := by cases s <;> rfl

theorem strStartsWith_append (x r : Str) : strStartsWith (x ++ r) x = true := by
  induction x with
  | nil => exact strStartsWith_nil r
  | cons a t ih =>
    rw [List.cons_append, strStartsWith]
    simp [ih]

theorem strContains_nil_needle (s : Str) : strContains s [] = true := by
  cases s with
  | nil => rfl
  | cons a t => rw [strContains, strStartsWith_nil, if_pos rfl]

theorem strContains_mid (l x r : Str) : strContains (l ++ (x ++ r)) x = true := by
  induction l with
  | nil =>
    simp only [List.nil_append]
    cases x with
    | nil => exact strContains_nil_needle r
    | cons a t =>
      rw [List.cons_append, strContains]
      rw [show strStartsWith (a :: (t ++ r)) (a :: t) = true from by
        rw [strStartsWith]
        simp [strStartsWith_append]]
      rw [if_pos rfl]
  | cons a t ih =>
    rw [List.cons_append, strContains, ih]
    cases h : strStartsWith (a :: (t ++ (x ++ r))) x <;> simp [h]

theorem splitFirstOn_nil (c : Char) : splitFirstOn c [] = ([], none) := rfl

theorem splitAllOnAux_first_none {c : Char} {s : Str} (h : (splitFirstOn c s).2 = none)
    (acc : Str) : splitAllOnAux c s acc = [acc.reverse ++ (splitFirstOn c s).1] := by
  induction s generalizing acc with
  | nil => simp [splitAllOnAux, splitFirstOn]
  | cons a t ih =>
    by_cases ha : a = c
    · rw [splitFirstOn, if_pos ha] at h
      cases h
    · rw [splitFirstOn, if_neg ha] at h ⊢
      rw [splitAllOnAux, if_neg ha, ih h (a :: acc)]
      simp

theorem splitAllOnAux_first_some {c : Char} {s rest : Str}
    (h : (splitFirstOn c s).2 = some rest) (acc : Str) :
    splitAllOnAux c s acc =
      (acc.reverse ++ (splitFirstOn c s).1) :: splitAllOnAux c rest [] := by
  induction s generalizing acc with
  | nil => cases h
  | cons a t ih =>
    by_cases ha : a = c
    · rw [splitFirstOn, if_pos ha] at h ⊢
      cases h
      rw [splitAllOnAux, if_pos ha]
      simp
    · rw [splitFirstOn, if_neg ha] at h ⊢
      rw [splitAllOnAux, if_neg ha, ih h (a :: acc)]
      simp

theorem splitAllOn_head (c : Char) (s : Str) :
    (splitAllOn c s).headD [] = (splitFirstOn c s).1 := by
  rw [splitAllOn]
  cases h : (splitFirstOn c s).2 with
  | none => rw [splitAllOnAux_first_none h]; simp
  | some rest => rw [splitAllOnAux_first_some h]; simp

theorem splitAllOn_get1_none {c : Char} {s : Str} (h : (splitFirstOn c s).2 = none) :
    (splitAllOn c s).get? 1 = none := by
  rw [splitAllOn, splitAllOnAux_first_none h]
  simp

theorem splitAllOn_get1_some {c : Char} {s rest : Str}
    (h : (splitFirstOn c s).2 = some rest) :
    (splitAllOn c s).get? 1 = some (splitFirstOn c rest).1 := by
  rw [splitAllOn, splitAllOnAux_first_some h]
  simp only [List.get?]
  cases h2 : (splitFirstOn c rest).2 with
  | none => rw [splitAllOnAux_first_none h2]; simp
  | some r2 => rw [splitAllOnAux_first_some h2]; simp

theorem parseList_eq_amended (pieces : List Str) :
    parseCookiesList pieces = parseCookiesListAmended pieces := by
  induction pieces with
  | nil => rfl
  | cons p rest ih =>
    rw [parseCookiesList, parseCookiesListAmended]
    cases hsp : (splitFirstOn '=' (jsTrim p)).2 with
    | none =>
      rw [splitAllOn_get1_none hsp]
      exact ih
    | some after =>
      rw [splitAllOn_get1_some hsp, splitAllOn_head, ih]

theorem lookupLast_not_mem {n : Str} {l : List (Str × Str)} (h : ∀ v, (n, v) ∉ l) :
    lookupLast n l = none := by
  induction l with
  | nil => rfl
  | cons kv t ih =>
    obtain ⟨k1, v⟩ := kv
    rw [lookupLast, ih (fun w hw => h w (List.mem_cons_of_mem _ hw))]
    rw [if_neg (fun e => h v (by rw [← e]; exact List.mem_cons_self _ _))]

/-- C1: for a callback request with valid configuration, no truthy provider
`error` parameter, and both `code` and `state` present (the source's
truthiness test, i.e. present with a non-empty value), if the decoded
`oauth_state` cookie is absent (`r = none`) or not character-for-character
equal to the `state` parameter, the callback handler terminates with the
CSRF-failure HTML document (status 400) before the token exchange
(`Sum.inl`, so no outbound request is made); conversely the exchange phase
(`Sum.inr`) is reached only when the decoded cookie equals `state` exactly. -/
theorem claim_C1 (env : Env) (ev : Event) :
    (∀ r : Option Str, validConfig env = true → jsTruthy (eventQS ev).error = false →
      jsTruthy (eventQS ev).code = true → jsTruthy (eventQS ev).state = true →
      extractStateFromCookies ev = some r → r ≠ some ((eventQS ev).state.getD []) →
      callbackPre env ev = Sum.inl (csrfFailureResponse env ev) ∧
        (csrfFailureResponse env ev).statusCode = 400 ∧
        (csrfFailureResponse env ev).body =
          generateErrorHTML ("Invalid state parameter - possible CSRF attack".data)) ∧
    (∀ ex : ExchangeState, callbackPre env ev = Sum.inr ex →
      extractStateFromCookies ev = some (some ((eventQS ev).state.getD []))) := by
  constructor
  · intro r hval herr hcode hstate hst hmis
    exact ⟨callbackPre_csrf env ev r hval herr hcode hstate hst hmis, rfl, rfl⟩
  · intro ex h
    exact (callbackPre_inr env ev ex h).2.2.2.2.1

/-- C1 witness: concrete CSRF mismatch fails with the 400 CSRF document, and
a concrete matching cookie reaches the exchange with the decoded cookie equal
to `state`. -/
theorem claim_C1_witness :
    (callbackPre envOk evCsrfMismatch = Sum.inl (csrfFailureResponse envOk evCsrfMismatch) ∧
      (csrfFailureResponse envOk evCsrfMismatch).statusCode = 400 ∧
      (csrfFailureResponse envOk evCsrfMismatch).body =
        generateErrorHTML ("Invalid state parameter - possible CSRF attack".data)) ∧
    extractStateFromCookies evCallbackOk =
      some (some ((eventQS evCallbackOk).state.getD [])) := by
  constructor
  · exact (claim_C1 envOk evCsrfMismatch).1 (some ("other".data)) (by decide) (by decide)
      (by decide) (by decide) (by decide) (by decide)
  · exact (claim_C1 envOk evCallbackOk).2
      { code := ("abc".data)
        state := ("xyz:create".data)
        project := ("create".data)
        frontendOrigin := ("http://localhost:5173".data) } (by decide)

/-- C3: for every registered project id `p` (a key of the project table),
the state token issued by the login handler is the lowercase hex encoding of
the 16 random bytes (32 hex characters, none of which is a colon) followed
by `':'` and `p`, and the callback handler's project extraction recovers
exactly `p` from that token. -/
theorem claim_C3 (rand : List Nat) (p : Str) (hp : p ∈ projectKeys)
    (hlen : rand.length = 16) (hb : ∀ b ∈ rand, b < 256) :
    stateToken rand p = hexOfBytes rand ++ ':' :: p ∧
    (hexOfBytes rand).length = 32 ∧
    (∀ c ∈ hexOfBytes rand, isLcHexDigit c = true) ∧
    (∀ c ∈ p, c ≠ ':') ∧
    extractProjectFromState (stateToken rand p) = p := by
  have hdig : ∀ c ∈ hexOfBytes rand, isLcHexDigit c = true := fun c hc => mem_hexOfBytes hb hc
  have hpc : ∀ c ∈ p, c ≠ ':' := by
    simp only [projectKeys, List.mem_cons, List.mem_singleton, List.not_mem_nil, or_false] at hp
    rcases hp with rfl | rfl <;> decide
  refine ⟨rfl, ?_, hdig, hpc, ?_⟩
  · rw [hexOfBytes_length, hlen]
  · exact extractProject_token (fun c hc => isLcHexDigit_ne_colon (hdig c hc)) hpc

/-- C3 witness: the round trip evaluated at sixteen zero bytes and the
`create` project. -/
theorem claim_C3_witness :
    stateToken (List.replicate 16 0) ("create".data) =
      hexOfBytes (List.replicate 16 0) ++ ':' :: ("create".data) ∧
    (hexOfBytes (List.replicate 16 0)).length = 32 ∧
    (∀ c ∈ hexOfBytes (List.replicate 16 0), isLcHexDigit c = true) ∧
    (∀ c ∈ ("create".data), c ≠ ':') ∧
    extractProjectFromState (stateToken (List.replicate 16 0) ("create".data)) =
      ("create".data) :=
  claim_C3 (List.replicate 16 0) ("create".data) (by decide) (by decide) (by decide)

/-- C4: the callback handler's terminal checks run in the fixed order
configuration validity, provider `error` parameter, `code`/`state` presence,
CSRF equality; each implication below assumes only the earlier checks
passed, its failure is terminal (`Sum.inl`, no token exchange), and it
produces that check's specific document — the provider-error document quotes
the provider's error value, and the presence document says
`Missing authorization code or state`. -/
theorem claim_C4 (env : Env) (ev : Event) :
    (validConfig env = false →
      callbackPre env ev = Sum.inl callbackConfigErrorResponse ∧
        callbackConfigErrorResponse.statusCode = 500) ∧
    (∀ e : Str, validConfig env = true → (eventQS ev).error = some e → e ≠ [] →
      callbackPre env ev = Sum.inl (githubErrorResponse env ev e) ∧
        (githubErrorResponse env ev e).statusCode = 400 ∧
        (githubErrorResponse env ev e).body =
          generateErrorHTML (("GitHub error: ".data) ++ e) ∧
        strContains (githubErrorResponse env ev e).body e = true) ∧
    (validConfig env = true → jsTruthy (eventQS ev).error = false →
      (jsTruthy (eventQS ev).code && jsTruthy (eventQS ev).state) = false →
      callbackPre env ev = Sum.inl (missingParamsResponse env ev) ∧
        (missingParamsResponse env ev).statusCode = 400 ∧
        (missingParamsResponse env ev).body =
          generateErrorHTML ("Missing authorization code or state".data)) ∧
    (∀ r : Option Str, validConfig env = true → jsTruthy (eventQS ev).error = false →
      jsTruthy (eventQS ev).code = true → jsTruthy (eventQS ev).state = true →
      extractStateFromCookies ev = some r → r ≠ some ((eventQS ev).state.getD []) →
      callbackPre env ev = Sum.inl (csrfFailureResponse env ev)) := by
  refine ⟨?_, ?_, ?_, ?_⟩
  · intro h
    exact ⟨callbackPre_config_err env ev h, rfl⟩
  · intro e hval herr hne
    have htr : jsTruthy (eventQS ev).error = true := by
      rw [herr, jsTruthy]
      cases e with
      | nil => exact absurd rfl hne
      | cons a t => rfl
    have hbody := callbackPre_github_err env ev hval htr
    rw [herr] at hbody
    refine ⟨hbody, rfl, rfl, ?_⟩
    rw [show (githubErrorResponse env ev e).body =
        (errPre ++ ("GitHub error: ".data)) ++ (e ++ errPost) from by
      simp [githubErrorResponse, generateErrorHTML, List.append_assoc]]
    exact strContains_mid _ e errPost
  · intro hval herr hcs
    exact ⟨callbackPre_missing env ev hval herr hcs, rfl, rfl⟩
  · intro r hval herr hcode hstate hst hmis
    exact callbackPre_csrf env ev r hval herr hcode hstate hst hmis

/-- C4 witness: the four terminal branches exercised at concrete inputs. -/
theorem claim_C4_witness :
    (callbackPre envMissingBoth evEmpty = Sum.inl callbackConfigErrorResponse ∧
      callbackConfigErrorResponse.statusCode = 500) ∧
    (callbackPre envOk evGithubError =
        Sum.inl (githubErrorResponse envOk evGithubError ("access_denied".data)) ∧
      (githubErrorResponse envOk evGithubError ("access_denied".data)).statusCode = 400 ∧
      (githubErrorResponse envOk evGithubError ("access_denied".data)).body =
        generateErrorHTML (("GitHub error: ".data) ++ ("access_denied".data)) ∧
      strContains (githubErrorResponse envOk evGithubError ("access_denied".data)).body
        ("access_denied".data) = true) ∧
    (callbackPre envOk evEmpty = Sum.inl (missingParamsResponse envOk evEmpty) ∧
      (missingParamsResponse envOk evEmpty).statusCode = 400 ∧
      (missingParamsResponse envOk evEmpty).body =
        generateErrorHTML ("Missing authorization code or state".data)) ∧
    callbackPre envOk evCsrfMismatch = Sum.inl (csrfFailureResponse envOk evCsrfMismatch) := by
  refine ⟨(claim_C4 envMissingBoth evEmpty).1 (by decide),
    (claim_C4 envOk evGithubError).2.1 ("access_denied".data) (by decide) (by decide) (by decide),
    (claim_C4 envOk evEmpty).2.2.1 (by decide) (by decide) (by decide),
    (claim_C4 envOk evCsrfMismatch).2.2.2 (some ("other".data)) (by decide) (by decide)
      (by decide) (by decide) (by decide) (by decide)⟩

/-- C8: a login request with valid configuration and method GET whose
`project` query value is not a key of the project registry still produces
the 302 redirect, and the origin resolver maps the unknown id to the
`create` project's frontend URL (total function, no exception). -/
theorem claim_C8 (env : Env) (ev : Event) (rand : List Nat) (p : Str)
    (hval : validConfig env = true) (hm : resolvedMethod ev = some ("GET".data))
    (hqp : (eventQS ev).project = some p) (hp : p ∉ projectKeys) :
    (loginHandler env ev rand).statusCode = 302 ∧
    loginProjectOf ev = p ∧
    getFrontendOrigin env p = (createProject env).frontendUrl := by
  simp only [projectKeys, List.mem_cons, List.mem_singleton, List.not_mem_nil, or_false,
    not_or] at hp
  refine ⟨?_, ?_, getFrontendOrigin_unknown env hp.1 hp.2⟩
  · rw [loginHandler_redirect env ev rand hval hm]
  · rw [loginProjectOf, hqp]
    rfl

/-- C8 witness: unknown project `nope` still yields 302 and resolves to the
`create` frontend URL. -/
theorem claim_C8_witness :
    (loginHandler envOk evLoginUnknownProject []).statusCode = 302 ∧
    loginProjectOf evLoginUnknownProject = ("nope".data) ∧
    getFrontendOrigin envOk ("nope".data) = (createProject envOk).frontendUrl :=
  claim_C8 envOk evLoginUnknownProject [] ("nope".data) (by decide) (by decide) (by decide)
    (by decide)

/-- C2: for a callback request that passes CSRF validation (`Sum.inr ex`)
whose token-exchange response carries `access_token = t` (non-empty) and no
`error` field, the handler returns status 200 with the cache-disabling
`Cache-Control` header, and the body is the post-message document with `t`
and the resolved project's frontend origin interpolated — an origin obtained
from the project registry (never the string `*`). -/
theorem claim_C2 (env : Env) (ev : Event) (ex : ExchangeState) (td : TokenData) (t : Str)
    (hpre : callbackPre env ev = Sum.inr ex) (herr : td.error = none)
    (htok : td.access_token = some t) (hne : t ≠ []) :
    callbackHandler env ev (some td) = successResponse env ev t ex.frontendOrigin ∧
    (successResponse env ev t ex.frontendOrigin).statusCode = 200 ∧
    headerValue (successResponse env ev t ex.frontendOrigin) ("Cache-Control".data) =
      some ("no-store, no-cache, must-revalidate".data) ∧
    (successResponse env ev t ex.frontendOrigin).body =
      pmPre ++ t ++ pmMid ++ ex.frontendOrigin ++ pmPost ∧
    ex.frontendOrigin = getFrontendOrigin env (extractProjectFromState ex.state) ∧
    ex.frontendOrigin ≠ ("*".data) := by
  have hex := (callbackPre_inr env ev ex hpre).2.2.2.2.2
  have htr : jsTruthy td.access_token = true := by
    rw [htok, jsTruthy]
    cases t with
    | nil => exact absurd rfl hne
    | cons a u => rfl
  refine ⟨?_, rfl, ?_, rfl, ?_, ?_⟩
  · rw [callbackHandler, hpre]
    simp only [callbackPost, herr]
    rw [if_neg (by decide), if_neg (by rw [htr]; decide), htok]
    rfl
  · rfl
  · rw [hex]
  · rw [hex]
    exact getFrontendOrigin_ne_star env _

/-- C2 witness: the success path evaluated at a concrete matching callback
and the token response `{access_token: "tok123"}`. -/
theorem claim_C2_witness :
    callbackHandler envOk evCallbackOk (some tdOk) =
      successResponse envOk evCallbackOk ("tok123".data) ("http://localhost:5173".data) ∧
    (successResponse envOk evCallbackOk ("tok123".data)
      ("http://localhost:5173".data)).statusCode = 200 ∧
    headerValue (successResponse envOk evCallbackOk ("tok123".data)
      ("http://localhost:5173".data)) ("Cache-Control".data) =
      some ("no-store, no-cache, must-revalidate".data) ∧
    (successResponse envOk evCallbackOk ("tok123".data) ("http://localhost:5173".data)).body =
      pmPre ++ ("tok123".data) ++ pmMid ++ ("http://localhost:5173".data) ++ pmPost ∧
    ("http://localhost:5173".data) =
      getFrontendOrigin envOk (extractProjectFromState ("xyz:create".data)) ∧
    ("http://localhost:5173".data) ≠ ("*".data) :=
  claim_C2 envOk evCallbackOk
    { code := ("abc".data)
      state := ("xyz:create".data)
      project := ("create".data)
      frontendOrigin := ("http://localhost:5173".data) } tdOk ("tok123".data)
    (by decide) rfl rfl (by decide)

/-- C10: the callback handler never inspects the HTTP method — two callback
requests differing only in `httpMethod`/`requestContext.http.method` get the
same response — and its status is never 405; the login handler, by contrast,
answers OPTIONS with the 200 preflight response and any method other than
GET and OPTIONS with 405 (given valid configuration, since its
configuration check precedes method dispatch). -/
theorem claim_C10 :
    (∀ (env : Env) (ev : Event) (m m2 rm rm2 : Option Str) (fr : Option TokenData),
      callbackHandler env { ev with httpMethod := m, rcMethod := rm } fr =
        callbackHandler env { ev with httpMethod := m2, rcMethod := rm2 } fr) ∧
    (∀ (env : Env) (ev : Event) (fr : Option TokenData),
      (callbackHandler env ev fr).statusCode ≠ 405) ∧
    (∀ (env : Env) (ev : Event) (rand : List Nat), validConfig env = true →
      resolvedMethod ev = some ("OPTIONS".data) →
      loginHandler env ev rand = preflightResponse env ev ∧
        (preflightResponse env ev).statusCode = 200) ∧
    (∀ (env : Env) (ev : Event) (rand : List Nat), validConfig env = true →
      resolvedMethod ev ≠ some ("OPTIONS".data) → resolvedMethod ev ≠ some ("GET".data) →
      loginHandler env ev rand = methodNotAllowedResponse env ev ∧
        (methodNotAllowedResponse env ev).statusCode = 405) := by
  refine ⟨?_, ?_, ?_, ?_⟩
  · intro env ev m m2 rm rm2 fr
    cases ev
    rfl
  · intro env ev fr
    rcases callbackHandler_status env ev fr with h | h | h <;> omega
  · intro env ev rand hval hm
    exact ⟨loginHandler_options env ev rand hval hm, rfl⟩
  · intro env ev rand hval hm1 hm2
    exact ⟨loginHandler_not_allowed env ev rand hval hm1 hm2, rfl⟩

/-- C10 witness: method-independence of the callback at GET versus POST, a
concrete callback status different from 405, and the login handler's
OPTIONS/POST dispatch. -/
theorem claim_C10_witness :
    callbackHandler envOk { evEmpty with httpMethod := some ("GET".data), rcMethod := none }
        (some tdOk) =
      callbackHandler envOk { evEmpty with httpMethod := some ("POST".data), rcMethod := none }
        (some tdOk) ∧
    (callbackHandler envOk evCallbackOk (some tdOk)).statusCode ≠ 405 ∧
    (loginHandler envOk evLoginOptions [] = preflightResponse envOk evLoginOptions ∧
      (preflightResponse envOk evLoginOptions).statusCode = 200) ∧
    (loginHandler envOk evLoginPost [] = methodNotAllowedResponse envOk evLoginPost ∧
      (methodNotAllowedResponse envOk evLoginPost).statusCode = 405) :=
  ⟨claim_C10.1 envOk evEmpty (some ("GET".data)) (some ("POST".data)) none none (some tdOk),
    claim_C10.2.1 envOk evCallbackOk (some tdOk),
    claim_C10.2.2.1 envOk evLoginOptions [] (by decide) (by decide),
    claim_C10.2.2.2 envOk evLoginPost [] (by decide) (by decide) (by decide)⟩
/-- C5 (amended): when the resolved GitHub client id and client secret are
both absent (falsy), `validateConfig` reports exactly the two missing items,
the login handler returns its 500 JSON response whose body lists both
items, and the callback handler terminates with its 500 configuration-error
HTML response — whose body is the generic `Server configuration error`
document and does not itemize the missing configuration. -/
theorem claim_C5 (env : Env) (ev ev2 : Event) (rand : List Nat)
    (hid : jsTruthy (cfgClientId env) = false)
    (hsec : jsTruthy (cfgClientSecret env) = false) :
    validateConfigErrors env =
      [("Missing GitHub Client ID".data), ("Missing GitHub Client Secret".data)] ∧
    loginHandler env ev rand = loginConfigErrorResponse env ∧
    (loginConfigErrorResponse env).statusCode = 500 ∧
    strContains (loginConfigErrorResponse env).body ("Missing GitHub Client ID".data) = true ∧
    strContains (loginConfigErrorResponse env).body
      ("Missing GitHub Client Secret".data) = true ∧
    callbackPre env ev2 = Sum.inl callbackConfigErrorResponse ∧
    callbackConfigErrorResponse.statusCode = 500 ∧
    callbackConfigErrorResponse.body = generateErrorHTML ("Server configuration error".data) := by
  have herrs : validateConfigErrors env =
      [("Missing GitHub Client ID".data), ("Missing GitHub Client Secret".data)] := by
    rw [validateConfigErrors, hid, hsec]
    rw [if_neg (by decide), if_neg (by decide),
      if_neg (fun e => allowedOrigins_ne_nil env (List.length_eq_zero.1 e))]
    rfl
  have hval : validConfig env = false := by
    rw [validConfig, herrs]
    decide
  have hbody : (loginConfigErrorResponse env).body =
      jsonConfigErrorBody
        [("Missing GitHub Client ID".data), ("Missing GitHub Client Secret".data)] := by
    rw [show (loginConfigErrorResponse env).body =
      jsonConfigErrorBody (validateConfigErrors env) from rfl, herrs]
  refine ⟨herrs, loginHandler_config_err env ev rand hval, rfl, ?_, ?_,
    callbackPre_config_err env ev2 hval, rfl, rfl⟩
  · rw [hbody]
    decide
  · rw [hbody]
    decide

/-- C5 witness: both credentials absent in a concrete environment. -/
theorem claim_C5_witness :
    validateConfigErrors envMissingBoth =
      [("Missing GitHub Client ID".data), ("Missing GitHub Client Secret".data)] ∧
    loginHandler envMissingBoth evLoginGet [] = loginConfigErrorResponse envMissingBoth ∧
    (loginConfigErrorResponse envMissingBoth).statusCode = 500 ∧
    strContains (loginConfigErrorResponse envMissingBoth).body
      ("Missing GitHub Client ID".data) = true ∧
    strContains (loginConfigErrorResponse envMissingBoth).body
      ("Missing GitHub Client Secret".data) = true ∧
    callbackPre envMissingBoth evEmpty = Sum.inl callbackConfigErrorResponse ∧
    callbackConfigErrorResponse.statusCode = 500 ∧
    callbackConfigErrorResponse.body =
      generateErrorHTML ("Server configuration error".data) :=
  claim_C5 envMissingBoth evLoginGet evEmpty [] (by decide) (by decide)

set_option maxRecDepth 100000 in
/-- C5 counterexample: with both credentials missing, the callback
handler's configuration-error body does not contain either itemized message,
refuting the claim that both handlers' bodies list both missing items. -/
theorem claim_C5_counterexample :
    callbackPre envMissingBoth evEmpty = Sum.inl callbackConfigErrorResponse ∧
    callbackConfigErrorResponse.statusCode = 500 ∧
    strContains callbackConfigErrorResponse.body ("Missing GitHub Client ID".data) = false ∧
    strContains callbackConfigErrorResponse.body
      ("Missing GitHub Client Secret".data) = false := by
  refine ⟨callbackPre_config_err envMissingBoth evEmpty (by decide), rfl, by decide, by decide⟩

/-- C6: for a login request with valid configuration and method GET, the
single Set-Cookie value names the cookie `oauth_state`, carries the
percent-encoded state token as its value (the decoding of which is exactly
the token), and the attribute list is HttpOnly, SameSite=Lax, Max-Age=600,
Path=/, with Secure present exactly when `NODE_ENV` is `production`. -/
theorem claim_C6 (env : Env) (ev : Event) (rand : List Nat)
    (hval : validConfig env = true) (hm : resolvedMethod ev = some ("GET".data)) :
    (loginHandler env ev rand).statusCode = 302 ∧
    (loginHandler env ev rand).cookies =
      [("oauth_state=".data) ++ encodeURIComponent (stateToken rand (loginProjectOf ev)) ++
        (if isProduction env then
          ("; HttpOnly; Secure; SameSite=Lax; Max-Age=600; Path=/".data)
         else ("; HttpOnly; SameSite=Lax; Max-Age=600; Path=/".data))] ∧
    decodeURIComponent (encodeURIComponent (stateToken rand (loginProjectOf ev))) =
      some (stateToken rand (loginProjectOf ev)) := by
  rw [loginHandler_redirect env ev rand hval hm]
  refine ⟨rfl, ?_, decode_encode _⟩
  rw [show (getCookieOptions env.nodeEnv) =
    (getCookieOptions env.nodeEnv) from rfl]
  rw [createCookieHeader_getCookieOptions]
  rfl

/-- C6 witness: the GET login at a concrete environment and random bytes. -/
theorem claim_C6_witness :
    (loginHandler envOk evLoginGet (List.replicate 16 255)).statusCode = 302 ∧
    (loginHandler envOk evLoginGet (List.replicate 16 255)).cookies =
      [("oauth_state=".data) ++
        encodeURIComponent (stateToken (List.replicate 16 255) (loginProjectOf evLoginGet)) ++
        (if isProduction envOk then
          ("; HttpOnly; Secure; SameSite=Lax; Max-Age=600; Path=/".data)
         else ("; HttpOnly; SameSite=Lax; Max-Age=600; Path=/".data))] ∧
    decodeURIComponent
        (encodeURIComponent (stateToken (List.replicate 16 255) (loginProjectOf evLoginGet))) =
      some (stateToken (List.replicate 16 255) (loginProjectOf evLoginGet)) :=
  claim_C6 envOk evLoginGet (List.replicate 16 255) (by decide) (by decide)

/-- C7 (amended): the source decoder coincides on every raw header string
with the amended description — split the header on `;`, trim each piece,
split the pair on `=` keeping only the first two segments (the value is the
text between the first and the second `=`; everything after a second `=` is
dropped), percent-decode the value — and it tolerates an empty header, a
cookie without a value (with or without `=`), and a looked-up name that is
absent, which yields no value rather than a failure. -/
theorem claim_C7 :
    (∀ s : Str, parseCookiesStr s = parseCookiesStrAmended s) ∧
    parseCookiesStr [] = some [] ∧
    parseCookiesStr ("a".data) = some [] ∧
    parseCookiesStr ("a=".data) = some [] ∧
    (∀ (s : Str) (l : List (Str × Str)) (n : Str), parseCookiesStr s = some l →
      (∀ v, (n, v) ∉ l) → lookupLast n l = none) := by
  refine ⟨?_, by decide, by decide, by decide, ?_⟩
  · intro s
    rw [parseCookiesStr, parseCookiesStrAmended, parseList_eq_amended]
  · intro s l n _ h
    exact lookupLast_not_mem h

/-- C7 witness: the coincidence and tolerance facts instantiated at a
concrete header with an absent name. -/
theorem claim_C7_witness :
    parseCookiesStr ("a=b; c".data) = parseCookiesStrAmended ("a=b; c".data) ∧
    lookupLast ("missing".data) [(("a".data), ("b".data))] = none := by
  constructor
  · exact claim_C7.1 ("a=b; c".data)
  · exact claim_C7.2.2.2.2 ("a=b".data) [(("a".data), ("b".data))] ("missing".data)
      (by decide) (by
        intro v hv
        simp only [List.mem_singleton, Prod.mk.injEq] at hv
        exact absurd hv.1 (by decide))

/-- C7 counterexample: on the header `a=b=c` the source decoder returns the
value `b` (it keeps only the segment between the first and second `=`),
while a decoder that splits each pair on the first `=` — the claim's wording
— would return `b=c`; the two disagree. -/
theorem claim_C7_counterexample :
    parseCookiesStr ("a=b=c".data) = some [(("a".data), ("b".data))] ∧
    parseCookiesStrClaimC7 ("a=b=c".data) = some [(("a".data), ("b=c".data))] ∧
    parseCookiesStr ("a=b=c".data) ≠ parseCookiesStrClaimC7 ("a=b=c".data) := by
  refine ⟨by decide, by decide, by decide⟩

/-- C9 (amended): for every non-empty cookie name free of `=`, `;` and
whitespace and every non-empty value `v`, decoding a header consisting of
the encoder's pair `name=encodeURIComponent(v)` yields exactly the mapping
`{name ↦ v}` — encoding and decoding are mutually inverse, even when `v`
contains `:`, `;`, `=` or spaces. -/
theorem claim_C9 (name v : Str) (hname : name ≠ [])
    (hn : ∀ x ∈ name, x ≠ '=' ∧ x ≠ ';' ∧ isJsSpace x = false) (hv : v ≠ []) :
    parseCookiesStr (createCookieHeader name v emptyCookieOptions) = some [(name, v)] ∧
    (parseCookiesStr (createCookieHeader name v emptyCookieOptions)).map
      (fun l => lookupLast name l) = some (some v) := by
  have h := parseCookies_enc_pair hname hn hv
  refine ⟨h, ?_⟩
  rw [h]
  simp only [Option.map_some']
  rw [show lookupLast name [(name, v)] = some v from by
    rw [lookupLast]
    rw [show lookupLast name ([] : List (Str × Str)) = none from rfl]
    exact if_pos rfl]

/-- C9 witness: round trip of a value containing `:`, `;`, `=` and a space
under the name `oauth_state`. -/
theorem claim_C9_witness :
    parseCookiesStr (createCookieHeader ("oauth_state".data) ("a b;=:x".data)
      emptyCookieOptions) = some [(("oauth_state".data), ("a b;=:x".data))] ∧
    (parseCookiesStr (createCookieHeader ("oauth_state".data) ("a b;=:x".data)
      emptyCookieOptions)).map (fun l => lookupLast ("oauth_state".data) l) =
      some (some ("a b;=:x".data)) :=
  claim_C9 ("oauth_state".data) ("a b;=:x".data) (by decide) (by decide) (by decide)

/-- C9 counterexample: the empty cookie name satisfies the claim's stated
character conditions (it contains no `=`, `;` or whitespace), yet decoding
the encoder's pair for it yields an empty mapping — the name maps to nothing
rather than to the value — so the claim fails without a non-emptiness
condition on the name. -/
theorem claim_C9_counterexample :
    (∀ x ∈ ([] : Str), x ≠ '=' ∧ x ≠ ';' ∧ isJsSpace x = false) ∧
    ("x".data) ≠ [] ∧
    parseCookiesStr (createCookieHeader [] ("x".data) emptyCookieOptions) = some [] ∧
    (parseCookiesStr (createCookieHeader [] ("x".data) emptyCookieOptions)).map
      (fun l => lookupLast ([] : Str) l) = some none := by
  refine ⟨by simp, by decide, by decide, by decide⟩
